import Mathlib

/-!
Verification of the Turnstile solving toolkit (Python sources under `src/`).

This file gives a shallow embedding, in Lean, of the parts of the code that the
checked properties are about:

* `modules/sitekey_validator.py` — `SitekeyValidator.validate_sitekey` and
  `_calculate_entropy`, including the placeholder-keyword list and the sixteen
  regex heuristics (each regex is compiled by hand into an equivalent decidable
  predicate on the uppercased input; the regexes are applied with
  `re.IGNORECASE`, which on these ASCII-only patterns is equivalent to matching
  the ASCII-uppercased string).
* `modules/turnstile_server.py` — the session table, `_serve_solve_page`,
  `_handle_token_submission` and `cleanup_old_sessions`.  The session table is
  modelled as an association list (Python dicts preserve insertion order);
  `time.time()` timestamps are modelled as rationals; `str(uuid.uuid4())` is
  modelled as an externally supplied fresh string.
* `modules/turnstile_solver.py` / `main.py` — the order in which the solving
  strategies are invoked, modelled as an event trace.

Python exceptions are modelled with `Option`: a function that raises an
uncaught exception returns `none`.  Unicode-specific behaviour of `str.upper`
and `re.IGNORECASE` outside ASCII is out of scope: case mapping is modelled by
`Char.toUpper`, which is the ASCII case map.
-/

namespace Ghost

/-- Python `str.upper` (ASCII case mapping), applied characterwise. -/
def pyUpper (s : String) : List Char := s.toList.map Char.toUpper

/-- The character class `[0-9A-F]`: what `[0-9A-Fa-f]` under `re.IGNORECASE`
matches on an uppercased input. -/
def isHexU (c : Char) : Bool := c.isDigit || ('A' ≤ c && c ≤ 'F')

/-- A hex digit of either case, the class `[0-9A-Fa-f]`. -/
def isHexAny (c : Char) : Bool := c.isDigit || ('A' ≤ c && c ≤ 'F') || ('a' ≤ c && c ≤ 'f')

/-- The anchored lead `^[01]x` of every regex in `INVALID_REGEX_PATTERNS`,
matched with `re.IGNORECASE` against the uppercased input: strips a leading
`0X` or `1X` and yields the rest, or `none` when the lead does not match. -/
def after01X (u : List Char) : Option (List Char) :=
  match u with
  | a :: b :: rest => if (a = '0' || a = '1') && b = 'X' then some rest else none
  | _ => none

/-- No newline character in the list (`.` in a Python regex without `DOTALL`
does not match `\n`). -/
def noNewline (l : List Char) : Bool := l.all (fun c => c != '\n')

/-- The regex tail `.*$` (no `MULTILINE`): `.*` may consume any newline-free
run, and `$` matches at the end of the string or just before one final
newline. -/
def dotStarEnd (l : List Char) : Bool :=
  noNewline l || (noNewline l.dropLast && l.getLast? == some '\n')

/-- `repBlock blk fuel l`: `l` is a whole number of consecutive copies of
`blk` (the semantics of a backreference repetition `(blk)\1{k,}$` apart from
the count, which is recovered from `l.length`).  `fuel ≥ l.length` makes the
recursion structural; callers pass `l.length` and a non-empty `blk`. -/
def repBlock (blk : List Char) : Nat → List Char → Bool
  | _, [] => true
  | 0, _ :: _ => false
  | fuel + 1, l => blk.isPrefixOf l && repBlock blk fuel (l.drop blk.length)

/-- The literal `0123456789ABCDEF`. -/
def hexSeq : List Char := "0123456789ABCDEF".toList

/-- The literal `FEDCBA9876543210`. -/
def hexSeqRev : List Char := "FEDCBA9876543210".toList

/-- The alternation `DEAD|BEEF|CAFE|FACE|BABE|FADE` (all words of length 4). -/
def hexWords : List (List Char) :=
  ["DEAD", "BEEF", "CAFE", "FACE", "BABE", "FADE"].map String.toList

/-- `(DEAD|…|FADE){k}` followed by `.*$`, starting at the head of `l`:
`k` consecutive words from `hexWords`, then any tail accepted by `.*$`.
A repetition count above `k` is absorbed by the trailing `.*`. -/
def wordsThen : Nat → List Char → Bool
  | 0, l => dotStarEnd l
  | k + 1, l => hexWords.any (fun w => w.isPrefixOf l && wordsThen k (l.drop 4))

/-- The body `.*(DEAD|…|FADE){4,}.*$`: some starting position reachable by a
newline-free `.*`, from which four consecutive words match. -/
def scanHexWords : List Char → Bool
  | [] => wordsThen 4 []
  | c :: rest => wordsThen 4 (c :: rest) || (c != '\n' && scanHexWords rest)

/-- The alternation `TEST|FAKE|DEMO|EXAMPLE|PLACEHOLDER`. -/
def fakeWords : List (List Char) :=
  ["TEST", "FAKE", "DEMO", "EXAMPLE", "PLACEHOLDER"].map String.toList

/-- The body `.*(TEST|FAKE|DEMO|EXAMPLE|PLACEHOLDER).*$`. -/
def scanFakeWords : List Char → Bool
  | [] => false
  | c :: rest =>
      fakeWords.any (fun w => w.isPrefixOf (c :: rest) && dotStarEnd ((c :: rest).drop w.length))
        || (c != '\n' && scanFakeWords rest)

/-- The alternation `12|AB|CD|EF` (all blocks of length 2). -/
def pairBlocks : List (List Char) := [['1', '2'], ['A', 'B'], ['C', 'D'], ['E', 'F']]

/-- `pairsRep fuel l`: `l` decomposes into consecutive blocks from
`pairBlocks`; returns the number of blocks.  The decomposition is unique since
every block has length 2. -/
def pairsRep : Nat → List Char → Option Nat
  | _, [] => some 0
  | 0, _ :: _ => none
  | fuel + 1, a :: b :: rest =>
      if pairBlocks.contains [a, b] then (pairsRep fuel rest).map (· + 1) else none
  | _ + 1, [_] => none

/-- `^[01]x0{20,}[0-9A-Fa-f]*$` — at least 20 zeros right after the prefix and
hex to the end (the zero run is itself hex, so this is equivalent to: the first
20 payload characters are `0` and the whole payload is hex of length ≥ 20). -/
def reZerosLead (u : List Char) : Bool :=
  match after01X u with
  | none => false
  | some r => decide (r.length ≥ 20) && (r.take 20).all (· = '0') && (r.drop 20).all isHexU

/-- `^[01]x[0-9A-Fa-f]*0{20,}$` — hex payload ending in at least 20 zeros. -/
def reZerosTail (u : List Char) : Bool :=
  match after01X u with
  | none => false
  | some r => decide (r.length ≥ 20) && r.all isHexU && (r.drop (r.length - 20)).all (· = '0')

/-- `^[01]x([0-9A-Fa-f])\1{25,}$` — the whole payload is a single hex
character repeated at least 26 times. -/
def reRepeatChar (u : List Char) : Bool :=
  match after01X u with
  | none => false
  | some r =>
      decide (r.length ≥ 26) &&
        (match r with
         | c :: rest => isHexU c && rest.all (· = c)
         | [] => false)

/-- `^[01]x([0-9A-Fa-f]{2})\1{12,}$` — the payload is its first two (hex)
characters repeated at least 13 times, exactly to the end. -/
def reRepeat2 (u : List Char) : Bool :=
  match after01X u with
  | none => false
  | some r => decide (r.length ≥ 26) && (r.take 2).all isHexU && repBlock (r.take 2) r.length r

/-- `^[01]x([0-9A-Fa-f]{4})\1{6,}$` — the payload is its first four (hex)
characters repeated at least 7 times. -/
def reRepeat4 (u : List Char) : Bool :=
  match after01X u with
  | none => false
  | some r => decide (r.length ≥ 28) && (r.take 4).all isHexU && repBlock (r.take 4) r.length r

/-- `^[01]x(0123456789ABCDEF){2,}$`. -/
def reSeqHex (u : List Char) : Bool :=
  match after01X u with
  | none => false
  | some r => decide (r.length ≥ 32) && repBlock hexSeq r.length r

/-- `^[01]x(FEDCBA9876543210){2,}$`. -/
def reSeqHexRev (u : List Char) : Bool :=
  match after01X u with
  | none => false
  | some r => decide (r.length ≥ 32) && repBlock hexSeqRev r.length r

/-- `^[01]x123456789ABCDEF.*$`. -/
def reSeqLead (u : List Char) : Bool :=
  match after01X u with
  | none => false
  | some r => ("123456789ABCDEF".toList).isPrefixOf r && dotStarEnd (r.drop 15)

/-- `^[01]x[Ff]{20,}$` — the payload is at least 20 `F`s (either case). -/
def reAllF (u : List Char) : Bool :=
  match after01X u with
  | none => false
  | some r => decide (r.length ≥ 20) && r.all (· = 'F')

/-- `^[01]x[Aa]{20,}$`. -/
def reAllA (u : List Char) : Bool :=
  match after01X u with
  | none => false
  | some r => decide (r.length ≥ 20) && r.all (· = 'A')

/-- `^[01]x[0-9]{20,}$`. -/
def reAllDigits (u : List Char) : Bool :=
  match after01X u with
  | none => false
  | some r => decide (r.length ≥ 20) && r.all Char.isDigit

/-- `^[01]x.*(DEAD|BEEF|CAFE|FACE|BABE|FADE){4,}.*$`. -/
def reHexWords (u : List Char) : Bool :=
  match after01X u with
  | none => false
  | some r => scanHexWords r

/-- `^[01]x.*(TEST|FAKE|DEMO|EXAMPLE|PLACEHOLDER).*$`. -/
def reFakeWords (u : List Char) : Bool :=
  match after01X u with
  | none => false
  | some r => scanFakeWords r

/-- `^[01]x4[Aa]{6,}.*$` — `4`, then at least six `A`s, then `.*$`.  With
`A ≠ '\n'`, backtracking over how many `A`s the bounded repeat keeps does not
change acceptance, so the greedy split is used. -/
def re4A (u : List Char) : Bool :=
  match after01X u with
  | none => false
  | some r =>
      match r with
      | '4' :: rest =>
          let as := rest.takeWhile (· = 'A')
          decide (as.length ≥ 6) && dotStarEnd (rest.drop as.length)
      | _ => false

/-- `^[01]x([0-9A-Fa-f]{1,3})\1{8,}$` — for some group size 1–3, the payload
is its leading block repeated at least 9 times, exactly to the end. -/
def reShortRepeat (u : List Char) : Bool :=
  match after01X u with
  | none => false
  | some r =>
      [1, 2, 3].any (fun g =>
        decide (r.length ≥ 9 * g) && (r.take g).all isHexU && repBlock (r.take g) r.length r)

/-- `^[01]x(12|AB|CD|EF){10,}$`. -/
def reTestPairs (u : List Char) : Bool :=
  match after01X u with
  | none => false
  | some r =>
      match pairsRep r.length r with
      | some k => decide (k ≥ 10)
      | none => false

/-- `SitekeyValidator.INVALID_REGEX_PATTERNS`, in source order: each regex as
its compiled predicate on the uppercased input, with the reason string. -/
def INVALID_REGEX_PATTERNS : List ((List Char → Bool) × String) :=
  [(reZerosLead, "Contains too many zeros (likely placeholder)"),
   (reZerosTail, "Ends with too many zeros (likely placeholder)"),
   (reRepeatChar, "Contains repeating single character (likely test key)"),
   (reRepeat2, "Contains repeating 2-char pattern (likely test key)"),
   (reRepeat4, "Contains repeating 4-char pattern (likely test key)"),
   (reSeqHex, "Contains sequential hex pattern (likely test key)"),
   (reSeqHexRev, "Contains reverse sequential pattern (likely test key)"),
   (reSeqLead, "Starts with sequential pattern (likely test key)"),
   (reAllF, "Contains all F characters (likely placeholder)"),
   (reAllA, "Contains all A characters (likely placeholder)"),
   (reAllDigits, "Contains only numbers (invalid hex format)"),
   (reHexWords, "Contains common hex test words"),
   (reFakeWords, "Contains test/fake keywords"),
   (re4A, "Starts with 4AAA... (common placeholder pattern)"),
   (reShortRepeat, "Contains short repeating pattern"),
   (reTestPairs, "Contains obvious test sequences")]

/-- `SitekeyValidator.DEMO_SITEKEYS` (keys with their descriptions). -/
def DEMO_SITEKEYS : List (String × String) :=
  [("1x00000000000000000000AA", "Demo - Always passes (visible)"),
   ("2x00000000000000000000AB", "Demo - Always blocks"),
   ("3x00000000000000000000FF", "Demo - Always passes (invisible)")]

/-- `SitekeyValidator.INVALID_PATTERNS` (placeholder keywords). -/
def INVALID_PATTERNS : List String :=
  ["0x4AAAAAAA", "YOUR_SITE_KEY", "PLACEHOLDER", "EXAMPLE", "TEST_KEY",
   "DEMO", "FAKE", "NULL", "UNDEFINED"]

/-- Python `pat in s` on strings: `pat` occurs as a contiguous substring. -/
def occursIn (pat : List Char) : List Char → Bool
  | [] => pat.isEmpty
  | c :: rest => pat.isPrefixOf (c :: rest) || occursIn pat rest

/-- The ASCII whitespace characters Python's `int()` strips. -/
def pyWhitespace (c : Char) : Bool :=
  c = ' ' || c = '\t' || c = '\n' || c = '\r' || c = '\x0b' || c = '\x0c'

/-- After a leading hex digit: more hex digits with single underscores placed
only between digits. -/
def hexRun : List Char → Bool
  | [] => true
  | '_' :: rest =>
      match rest with
      | c :: r2 => isHexAny c && hexRun r2
      | [] => false
  | c :: rest => isHexAny c && hexRun rest

/-- Whether Python `int(s, 16)` succeeds on `s`: optional surrounding (ASCII)
whitespace, an optional sign, an optional `0x`/`0X` prefix (an underscore may
directly follow the prefix), and a non-empty run of hex digits with single
underscores between digits. -/
def pyIntBase16Ok (l : List Char) : Bool :=
  let l1 := ((l.dropWhile pyWhitespace).reverse.dropWhile pyWhitespace).reverse
  let l2 := match l1 with
            | '+' :: r => r
            | '-' :: r => r
            | r => r
  let l4 := match l2 with
            | '0' :: 'x' :: r | '0' :: 'X' :: r =>
                (match r with
                 | '_' :: r2 => r2
                 | _ => r)
            | r => r
  match l4 with
  | [] => false
  | c :: rest => isHexAny c && hexRun rest

/-- `SitekeyValidator._calculate_entropy`.  The empty string returns `0.0`
before the loop.  For a non-empty string the character-count dictionary is
non-empty, and the first iteration of the entropy loop evaluates
`probability.bit_length()` where `probability = count / length` is a Python
`float`; `float` has no `bit_length` attribute, so the call raises
`AttributeError` (which `validate_sitekey` does not catch — its `except`
clause only covers `ValueError`).  An uncaught exception is modelled as
`none`. -/
def calculateEntropy (hex_string : String) : Option ℚ :=
  if hex_string.toList.isEmpty then some 0 else none

/-- Python `s.startswith(p)`, computed on the character lists (equivalent to
`String.startsWith`, but evaluable by the kernel). -/
def pyStartsWith (s p : String) : Bool := p.toList.isPrefixOf s.toList

/-- The result dictionary built by `validate_sitekey`.  The `warnings`,
`notes` and `domain` entries are presentation-only and omitted; an
`entropy_score` entry is only ever added on the branch that raises before
returning, so no returned dictionary carries one. -/
structure SitekeyResult where
  is_valid : Bool := false
  is_demo : Bool := false
  is_fake : Bool := false
  type : String := "unknown"
  confidence : Int := 0
  reason : Option String := none
  description : Option String := none
deriving DecidableEq, Repr

/-- `SitekeyValidator.validate_sitekey`.  The `url` argument only feeds the
omitted `domain` entry and is dropped.  Returns `none` when the Python
function raises (the 32-character valid-hex path, where `_calculate_entropy`
raises `AttributeError` before the result is returned).  The local
`sitekey_upper` is written out as `pyUpper sitekey` at both of its uses. -/
def validateSitekey (sitekey : String) : Option SitekeyResult :=
  -- 1. known demo key
  if sitekey ∈ DEMO_SITEKEYS.map Prod.fst then
    some { is_demo := true, type := "demo", confidence := 100,
           description := ((DEMO_SITEKEYS.find? (fun p => p.1 = sitekey)).map Prod.snd) }
  else
    -- 2. placeholder keywords, checked against the uppercased key
    match INVALID_PATTERNS.find? (fun p => occursIn p.toList (pyUpper sitekey)) with
    | some p =>
        some { is_fake := true, type := "fake", confidence := 95,
               reason := some ("Contains placeholder text: " ++ p) }
    | none =>
      -- 3. regex heuristics (first match wins)
      match INVALID_REGEX_PATTERNS.find? (fun pr => pr.1 (pyUpper sitekey)) with
      | some pr =>
          some { is_fake := true, type := "fake", confidence := 90, reason := some pr.2 }
      | none =>
        -- 4. basic format check
        if ¬ (sitekey.length ≥ 20 ∧ (pyStartsWith sitekey "1x" ∨ pyStartsWith sitekey "0x")) then
          some { is_fake := true, type := "invalid_format", confidence := 100,
                 reason := some "Invalid format - must start with 1x/0x and be 20+ chars" }
        else
          -- 5. 32-character keys: hex payload and entropy check
          -- (`hex_part = sitekey[2:]` is written out as `sitekey.drop 2`)
          if sitekey.length = 32 ∧ (pyStartsWith sitekey "1x" ∨ pyStartsWith sitekey "0x") then
            if pyIntBase16Ok (sitekey.drop 2).toList then
              -- `_calculate_entropy(hex_part)` raises before the result is built
              none
            else
              some { is_fake := true, type := "invalid_hex", confidence := 95,
                     reason := some "Contains non-hex characters after prefix" }
          else
            some { is_valid := true, type := "unusual_format", confidence := 30,
                   reason := some ("Unusual length: " ++ toString sitekey.length
                     ++ " chars (expected 32)") }

/-! Helper lemmas about `occursIn`. -/

lemma mem_of_isPrefixOf : ∀ {p l : List Char}, p.isPrefixOf l = true → ∀ c ∈ p, c ∈ l := by
  intro p
  induction p with
  | nil => intro l _ c hc; cases hc
  | cons a as ih =>
    intro l h c hc
    cases l with
    | nil => simp [List.isPrefixOf] at h
    | cons b bs =>
      simp only [List.isPrefixOf, Bool.and_eq_true, beq_iff_eq] at h
      rcases List.mem_cons.mp hc with rfl | hcas
      · exact h.1 ▸ List.mem_cons_self _ _
      · exact List.mem_cons_of_mem _ (ih h.2 c hcas)

lemma mem_of_occursIn : ∀ {l p : List Char}, occursIn p l = true → ∀ c ∈ p, c ∈ l := by
  intro l
  induction l with
  | nil =>
    intro p h c hc
    simp only [occursIn, List.isEmpty_iff] at h
    subst h; cases hc
  | cons b bs ih =>
    intro p h c hc
    rcases Bool.or_eq_true_iff.mp h with h1 | h1
    · exact mem_of_isPrefixOf h1 c hc
    · exact List.mem_cons_of_mem _ (ih h1 c hc)

/-- If some character of `pat` cannot occur in `l`, then `pat` is not a
substring of `l`. -/
lemma occursIn_eq_false {pat l : List Char} {c : Char} (hc : c ∈ pat) (hl : c ∉ l) :
    occursIn pat l = false := by
  cases hoc : occursIn pat l with
  | false => rfl
  | true => exact absurd (mem_of_occursIn hoc c hc) hl

/-- C9: every result dictionary actually returned by `validate_sitekey` has
exactly one of the flags `is_demo`, `is_fake`, `is_valid` set: the tri-state
classification is mutually exclusive and exhaustive over all return paths.
(On the 32-character valid-hex path the function raises before returning, so
no dictionary is produced there at all.) -/
theorem validate_sitekey_tri_state (s : String) (r : SitekeyResult)
    (h : validateSitekey s = some r) :
    [r.is_demo, r.is_fake, r.is_valid].count true = 1 := by
  unfold validateSitekey at h
  split at h
  · cases h; rfl
  · split at h
    · cases h; rfl
    · split at h
      · cases h; rfl
      · split at h
        · cases h; rfl
        · split at h
          · split at h
            · exact Option.noConfusion h
            · cases h; rfl
          · cases h; rfl

/-- Witness for C9: the first demo key produces the demo-flagged result. -/
def demoPassResult : SitekeyResult :=
  { is_demo := true, type := "demo", confidence := 100,
    description := some "Demo - Always passes (visible)" }

theorem validate_sitekey_tri_state_witness :
    [demoPassResult.is_demo, demoPassResult.is_fake, demoPassResult.is_valid].count true = 1 :=
  validate_sitekey_tri_state "1x00000000000000000000AA" demoPassResult (by decide)

/-- C1: `validate_sitekey` never reaches the documented valid-with-confidence
result for a well-formed 32-character production key.  On any such key the
entropy computation `_calculate_entropy` evaluates `probability.bit_length()`
on a Python `float`, raising `AttributeError`, which the surrounding
`except ValueError` clause does not catch: the call raises instead of
returning `is_valid=true`.  Shown here on a concrete high-diversity key. -/
theorem validate_sitekey_crashes_on_valid_key :
    ("1xABCDEF1234567890ABCDEF12345678" : String).length = 32 ∧
    pyStartsWith "1xABCDEF1234567890ABCDEF12345678" "1x" = true ∧
    pyIntBase16Ok ("1xABCDEF1234567890ABCDEF12345678".drop 2).toList = true ∧
    validateSitekey "1xABCDEF1234567890ABCDEF12345678" = none :=
  ⟨by decide, by decide, by decide, by decide⟩

/-- C2: `_calculate_entropy` crashes on every non-empty input instead of
computing a score: for the claim's two shapes — a 30-character single-digit
string (claimed entropy 0.0) and a 30-character uniformly distributed hex
string (claimed entropy > 0.9) — the function raises `AttributeError`
(`float` has no `bit_length`), modelled as `none`. -/
theorem calculate_entropy_crashes :
    calculateEntropy "000000000000000000000000000000" = none ∧
    calculateEntropy "0123456789abcdef0123456789abcd" = none :=
  ⟨rfl, rfl⟩

set_option maxRecDepth 4000 in
/-- Counterexample to C5: the claim quantifies over strings matching the
unanchored pattern `^[01]x[Ff]{20,}` (arbitrary trailing characters), but the
code's regex is anchored with `$`.  The string `1x` + 20 `F`s + `G` matches
the unanchored pattern, yet `validate_sitekey` classifies it `is_valid=true`
(`unusual_format`), not `is_fake=true`. -/
theorem validate_sitekey_allF_unanchored_not_fake :
    "1xFFFFFFFFFFFFFFFFFFFFG".take 22 = "1x" ++ "FFFFFFFFFFFFFFFFFFFF" ∧
    validateSitekey "1xFFFFFFFFFFFFFFFFFFFFG" =
      some { is_valid := true, type := "unusual_format", confidence := 30,
             reason := some "Unusual length: 23 chars (expected 32)" } :=
  ⟨by decide, by decide⟩

/-- C5 (amended): for strings matching the code's anchored regex
`^[01]x[Ff]{20,}$` — a `0`/`1`, an `x` of either case, then nothing but at
least twenty `F`/`f` characters — `validate_sitekey` returns `is_fake=true`
(with confidence 90, the regex-heuristic branch). -/
theorem validate_sitekey_allF_anchored_fake (s : String) (a x : Char) (rest : List Char)
    (hs : s.toList = a :: x :: rest)
    (ha : a = '0' ∨ a = '1') (hx : x = 'x' ∨ x = 'X')
    (hlen : 20 ≤ rest.length) (hF : ∀ c ∈ rest, c = 'F' ∨ c = 'f') :
    ∃ r, validateSitekey s = some r ∧ r.is_fake = true ∧ r.confidence = 90 := by
  obtain ⟨c0, rest2, hrest⟩ : ∃ c0 rest2, rest = c0 :: rest2 := by
    cases rest with
    | nil => simp at hlen
    | cons c0 r2 => exact ⟨c0, r2, rfl⟩
  have hua : Char.toUpper a = a := by rcases ha with rfl | rfl <;> rfl
  have hux : Char.toUpper x = 'X' := by rcases hx with rfl | rfl <;> rfl
  have hup : pyUpper s = a :: 'X' :: rest.map Char.toUpper := by
    unfold pyUpper
    rw [hs]
    simp [hua, hux]
  have hmapF : ∀ d ∈ rest.map Char.toUpper, d = 'F' := by
    intro d hd
    obtain ⟨e, he, rfl⟩ := List.mem_map.mp hd
    rcases hF e he with rfl | rfl <;> rfl
  have hc0 : c0 = 'F' ∨ c0 = 'f' := hF c0 (by rw [hrest]; exact List.mem_cons_self _ _)
  have hdemo : s ∉ DEMO_SITEKEYS.map Prod.fst := by
    intro hmem
    have hkey : ∀ k ∈ DEMO_SITEKEYS.map Prod.fst, k.toList[2]? = some '0' := by decide
    have hidx : s.toList[2]? = some c0 := by rw [hs, hrest]; simp
    have h0 : some '0' = some c0 := (hkey s hmem).symm.trans hidx
    rcases hc0 with rfl | rfl <;> exact absurd h0 (by decide)
  have hchars : ∀ d ∈ pyUpper s, d = '0' ∨ d = '1' ∨ d = 'X' ∨ d = 'F' := by
    rw [hup]
    intro d hd
    rcases List.mem_cons.mp hd with rfl | hd2
    · rcases ha with rfl | rfl
      · exact Or.inl rfl
      · exact Or.inr (Or.inl rfl)
    · rcases List.mem_cons.mp hd2 with rfl | hd3
      · exact Or.inr (Or.inr (Or.inl rfl))
      · exact Or.inr (Or.inr (Or.inr (hmapF d hd3)))
  have hfind1 : INVALID_PATTERNS.find? (fun p => occursIn p.toList (pyUpper s)) = none := by
    rw [List.find?_eq_none]
    intro p hp
    simp only [Bool.not_eq_true]
    have hbad : ∃ c ∈ p.toList, ¬ (c = '0' ∨ c = '1' ∨ c = 'X' ∨ c = 'F') := by
      fin_cases hp <;> decide
    obtain ⟨c, hcp, hcbad⟩ := hbad
    refine occursIn_eq_false hcp ?_
    intro hcl
    exact hcbad (hchars c hcl)
  have hallF : reAllF (pyUpper s) = true := by
    have hred : reAllF (a :: 'X' :: rest.map Char.toUpper)
        = (decide ((rest.map Char.toUpper).length ≥ 20) && (rest.map Char.toUpper).all (· = 'F')) := by
      rcases ha with rfl | rfl <;> rfl
    rw [hup, hred]
    simp only [Bool.and_eq_true, decide_eq_true_eq, List.all_eq_true, List.length_map,
      decide_eq_true_eq]
    exact ⟨hlen, fun d hd => by simp [hmapF d hd]⟩
  have hfind2 : (INVALID_REGEX_PATTERNS.find? (fun pr => pr.1 (pyUpper s))).isSome := by
    rw [List.find?_isSome]
    refine ⟨(reAllF, "Contains all F characters (likely placeholder)"), ?_, hallF⟩
    simp [INVALID_REGEX_PATTERNS]
  obtain ⟨pr, hpr⟩ := Option.isSome_iff_exists.mp hfind2
  refine ⟨{ is_fake := true, type := "fake", confidence := 90, reason := some pr.2 }, ?_, rfl, rfl⟩
  unfold validateSitekey
  rw [if_neg hdemo, hfind1, hpr]

theorem validate_sitekey_allF_anchored_fake_witness :
    ∃ r, validateSitekey "0xFFFFFFFFFFFFFFFFFFFF" = some r
      ∧ r.is_fake = true ∧ r.confidence = 90 :=
  validate_sitekey_allF_anchored_fake "0xFFFFFFFFFFFFFFFFFFFF" '0' 'x'
    ['F', 'F', 'F', 'F', 'F', 'F', 'F', 'F', 'F', 'F',
     'F', 'F', 'F', 'F', 'F', 'F', 'F', 'F', 'F', 'F']
    (by decide) (Or.inl rfl) (Or.inl rfl) (by decide) (by decide)

/-- One entry of the in-memory session table, as built by
`_serve_solve_page` and mutated by `_handle_token_submission`. -/
structure SessionData where
  id : String
  sitekey : String
  url : String
  action : String
  cdata : String
  created_at : ℚ
  status : String
  token : Option String
  attempts : Nat
  completed_at : Option ℚ := none
deriving DecidableEq, Repr

/-- The session table. -/
abbrev SessionTable := List (String × SessionData)

/-- Python `self.sessions[sid]` (`None` when absent). -/
def lookupSession (sessions : SessionTable) (sid : String) : Option SessionData :=
  (sessions.find? (fun kv => kv.1 = sid)).map Prod.snd

/-- The decoded body of a `POST /token` request: either JSON that fails to
parse, or a parsed object whose `sessionId` and `token` entries may each be
absent/null (`data.get(...)` returns `None` then). -/
inductive TokenPost where
  | malformed
  | payload (sessionId : Option String) (token : Option String)

/-- `_handle_token_submission`, together with `do_POST`'s blanket exception
handler.  Returns the new session table and the HTTP status code sent:
* unparsable JSON → 400 (`Invalid JSON data`), table unchanged;
* missing or unknown `sessionId` → 404, table unchanged;
* known session: `token`, `status` and `completed_at` are mutated first, and
  the handler then evaluates `token[:20]` for its log line — when the
  submitted token is `None` that raises `TypeError`, which `do_POST` converts
  to a 500 response (after the mutation); otherwise 200 is sent. -/
def handleTokenSubmission (sessions : SessionTable) (body : TokenPost) (now : ℚ) :
    SessionTable × Nat :=
  match body with
  | .malformed => (sessions, 400)
  | .payload sessionId token =>
    match sessionId with
    | none => (sessions, 404)
    | some sid =>
      if sid ∈ sessions.map Prod.fst then
        (sessions.map (fun kv =>
          if kv.1 = sid then
            (kv.1, { kv.2 with token := token, status := "completed",
                               completed_at := some now })
          else kv),
         match token with
         | none => 500
         | some _ => 200)
      else (sessions, 404)

/-- `cleanup_old_sessions`: first collect `to_remove`, the ids of sessions
whose age exceeds `max_age_seconds` (default 3600), then delete exactly those
ids from the table. -/
def cleanupOldSessions (sessions : SessionTable) (now : ℚ)
    (max_age_seconds : ℚ := 3600) : SessionTable :=
  let to_remove :=
    (sessions.filter (fun kv => max_age_seconds < now - kv.2.created_at)).map Prod.fst
  sessions.filter (fun kv => ! to_remove.contains kv.1)

/-- Two entries of an association list with no duplicate keys that share a
key are the same entry. -/
lemma assoc_entry_eq_of_nodup {l : SessionTable} (h : (l.map Prod.fst).Nodup)
    {kv kw : String × SessionData} (hkv : kv ∈ l) (hkw : kw ∈ l) (hk : kv.1 = kw.1) :
    kv = kw := by
  induction l with
  | nil => cases hkv
  | cons hd tl ih =>
    rw [List.map_cons, List.nodup_cons] at h
    rcases List.mem_cons.mp hkv with rfl | hkv2
    · rcases List.mem_cons.mp hkw with rfl | hkw2
      · rfl
      · exact absurd (hk ▸ List.mem_map_of_mem Prod.fst hkw2) h.1
    · rcases List.mem_cons.mp hkw with rfl | hkw2
      · exact absurd (hk ▸ List.mem_map_of_mem Prod.fst hkv2) h.1
      · exact ih h.2 hkv2 hkw2

/-- C10: `cleanup_old_sessions` removes exactly the sessions whose age
exceeds `max_age_seconds` and retains — unmodified — exactly those whose age
is at most `max_age_seconds` (assuming the table's keys are distinct, which
Python dict keys are). -/
theorem cleanup_old_sessions_mem (sessions : SessionTable) (now maxAge : ℚ)
    (hnodup : (sessions.map Prod.fst).Nodup) (sid : String) (sd : SessionData) :
    (sid, sd) ∈ cleanupOldSessions sessions now maxAge ↔
      (sid, sd) ∈ sessions ∧ now - sd.created_at ≤ maxAge := by
  have hcontains : ∀ (l : List String) (a : String), (l.contains a = false) ↔ a ∉ l := by
    intro l a
    simp [List.elem_iff]
  unfold cleanupOldSessions
  simp only [List.mem_filter, Bool.not_eq_eq_eq_not, Bool.not_true, hcontains]
  constructor
  · rintro ⟨hmem, hnot⟩
    refine ⟨hmem, ?_⟩
    by_contra hage
    exact hnot (List.mem_map_of_mem Prod.fst
      (List.mem_filter.mpr ⟨hmem, by simpa using lt_of_not_le hage⟩))
  · rintro ⟨hmem, hage⟩
    refine ⟨hmem, ?_⟩
    intro hrm
    obtain ⟨kv, hkv, hfst⟩ := List.mem_map.mp hrm
    obtain ⟨hkvmem, hold⟩ := List.mem_filter.mp hkv
    have : kv = (sid, sd) := assoc_entry_eq_of_nodup hnodup hkvmem hmem hfst
    subst this
    simp only [decide_eq_true_eq] at hold
    exact absurd hage (not_le_of_lt hold)

/-- Witness data for the C10 witness: one stale and one fresh session. -/
def staleSession : SessionData :=
  { id := "a", sitekey := "k1", url := "u", action := "", cdata := "",
    created_at := 100, status := "waiting", token := none, attempts := 0 }

/-- Witness data for the C10 witness. -/
def freshSession : SessionData :=
  { id := "b", sitekey := "k2", url := "u", action := "", cdata := "",
    created_at := 4000, status := "waiting", token := none, attempts := 0 }

theorem cleanup_old_sessions_mem_witness :
    ("b", freshSession) ∈
        cleanupOldSessions [("a", staleSession), ("b", freshSession)] 5000 3600 ↔
      ("b", freshSession) ∈ [("a", staleSession), ("b", freshSession)] ∧
        5000 - freshSession.created_at ≤ 3600 :=
  cleanup_old_sessions_mem [("a", staleSession), ("b", freshSession)] 5000 3600
    (by decide) "b" freshSession

/-- Updating the entry with key `sid` commutes with looking `sid` up. -/
lemma lookupSession_update (sessions : SessionTable) (sid : String)
    (f : SessionData → SessionData) :
    lookupSession (sessions.map (fun kv => if kv.1 = sid then (kv.1, f kv.2) else kv)) sid
      = (lookupSession sessions sid).map f := by
  induction sessions with
  | nil => rfl
  | cons hd tl ih =>
    unfold lookupSession at ih ⊢
    by_cases h : hd.1 = sid
    · rw [List.map_cons, if_pos h,
        List.find?_cons_of_pos _ (by simpa using h),
        List.find?_cons_of_pos _ (by simpa using h)]
      simp
    · rw [List.map_cons, if_neg h,
        List.find?_cons_of_neg _ (by simpa using h),
        List.find?_cons_of_neg _ (by simpa using h)]
      exact ih

/-- Counterexample to C4's write-once clause: the handler has no guard on an
already-completed session — a second `POST /token` for the same session
overwrites the stored token (`tokA` becomes `tokB`), so the token is not set
at most once. -/
def solvedSession : SessionData :=
  { id := "s1", sitekey := "1xSOLVEDKEY", url := "u", action := "", cdata := "",
    created_at := 0, status := "completed", token := some "tokA", attempts := 0,
    completed_at := some 1 }

theorem token_submission_second_callback_overwrites :
    solvedSession.token = some "tokA" ∧
    handleTokenSubmission [("s1", solvedSession)] (.payload (some "s1") (some "tokB")) 2
      = ([("s1", { solvedSession with token := some "tokB", status := "completed",
                                      completed_at := some 2 })], 200) ∧
    (some "tokB" : Option String) ≠ some "tokA" :=
  ⟨rfl, by decide, by decide⟩

/-- C4 (amended): `POST /token` with an unknown `sessionId` returns 404 and
leaves the table unchanged; naming an existing session, it sets that
session's `status` to `completed`, its `completed_at` to now, and its `token`
to the submitted value — whatever the previous value was, i.e. later
callbacks overwrite the token (last caller wins) rather than being ignored —
answering 200 when the submitted token is non-null (and 500 when it is
null). -/
theorem handle_token_submission_amended (sessions : SessionTable) (sid : String)
    (tok : Option String) (now : ℚ) :
    (sid ∉ sessions.map Prod.fst →
      handleTokenSubmission sessions (.payload (some sid) tok) now = (sessions, 404)) ∧
    (sid ∈ sessions.map Prod.fst →
      (handleTokenSubmission sessions (.payload (some sid) tok) now).2
          = (if tok = none then 500 else 200) ∧
      lookupSession (handleTokenSubmission sessions (.payload (some sid) tok) now).1 sid
        = (lookupSession sessions sid).map
            (fun sd => { sd with token := tok, status := "completed",
                                 completed_at := some now })) := by
  constructor
  · intro h
    simp only [handleTokenSubmission]
    rw [if_neg h]
  · intro h
    simp only [handleTokenSubmission]
    rw [if_pos h]
    refine ⟨?_, lookupSession_update sessions sid
      (fun sd => { sd with token := tok, status := "completed", completed_at := some now })⟩
    cases tok with
    | none => rfl
    | some t => rfl

/-- Witness session for the C4 witness. -/
def waitingSessionC4 : SessionData :=
  { id := "s1", sitekey := "1xREALKEY000", url := "u", action := "", cdata := "",
    created_at := 0, status := "waiting", token := none, attempts := 0 }

theorem handle_token_submission_amended_witness :
    (handleTokenSubmission [("s1", waitingSessionC4)]
        (.payload (some "s1") (some "tokA")) 7).2
        = (if (some "tokA" : Option String) = none then 500 else 200) ∧
    lookupSession (handleTokenSubmission [("s1", waitingSessionC4)]
        (.payload (some "s1") (some "tokA")) 7).1 "s1"
      = (lookupSession [("s1", waitingSessionC4)] "s1").map
          (fun sd => { sd with token := some "tokA", status := "completed",
                               completed_at := some 7 }) :=
  (handle_token_submission_amended [("s1", waitingSessionC4)] "s1" (some "tokA") 7).2
    (by decide)

/-- C8: `POST /token` with well-formed JSON naming an existing session but
carrying no (or a null) `token` mutates the session first — `status` becomes
`completed`, `token` stays null, `completed_at` is set — and only then fails:
the client gets HTTP 500 (`token[:20]` raises `TypeError` on `None`, caught
by `do_POST`) while the table keeps the half-updated session.  The error path
is not atomic. -/
theorem token_submission_null_token_mutates (sessions : SessionTable) (sid : String)
    (now : ℚ) (hmem : sid ∈ sessions.map Prod.fst) :
    (handleTokenSubmission sessions (.payload (some sid) none) now).2 = 500 ∧
    (lookupSession sessions sid).isSome = true ∧
    lookupSession (handleTokenSubmission sessions (.payload (some sid) none) now).1 sid
      = (lookupSession sessions sid).map
          (fun sd => { sd with token := none, status := "completed",
                               completed_at := some now }) := by
  refine ⟨?_, ?_, ?_⟩
  · simp only [handleTokenSubmission]
    rw [if_pos hmem]
  · obtain ⟨kv, hkv, hfst⟩ := List.mem_map.mp hmem
    unfold lookupSession
    have hfound : (List.find? (fun kv => decide (kv.1 = sid)) sessions).isSome :=
      List.find?_isSome.mpr ⟨kv, hkv, by simpa using hfst⟩
    obtain ⟨v, hv⟩ := Option.isSome_iff_exists.mp hfound
    rw [hv]
    rfl
  · simp only [handleTokenSubmission]
    rw [if_pos hmem]
    exact lookupSession_update sessions sid
      (fun sd => { sd with token := none, status := "completed", completed_at := some now })

/-- Witness session for the C8 witness. -/
def waitingSessionC8 : SessionData :=
  { id := "s2", sitekey := "1xREALKEY999", url := "u", action := "", cdata := "",
    created_at := 3, status := "waiting", token := none, attempts := 0 }

theorem token_submission_null_token_mutates_witness :
    (handleTokenSubmission [("s2", waitingSessionC8)] (.payload (some "s2") none) 9).2 = 500 ∧
    (lookupSession [("s2", waitingSessionC8)] "s2").isSome = true ∧
    lookupSession (handleTokenSubmission [("s2", waitingSessionC8)]
        (.payload (some "s2") none) 9).1 "s2"
      = (lookupSession [("s2", waitingSessionC8)] "s2").map
          (fun sd => { sd with token := none, status := "completed",
                               completed_at := some 9 }) :=
  token_submission_null_token_mutates [("s2", waitingSessionC8)] "s2" 9 (by decide)

/-- Chunk 0 of the template segment pre. -/
def htmlTemplatePre0 : String := "\n    <!DOCTYPE html>\n    <html lang=\"en\">\n    <head>\n        <meta charset=\"UTF-8\">\n        <meta name=\"viewport\" content=\"width=device-width, initial-scale=1.0\">\n        <title>Turnstile Verification</title>\n        <script src=\"https://challenges.cloudflare.com/turnstile/v0/api.js?onload=onTurnstileLoad\" async defer></script>\n        <style>\n            * \x7b\n                margin: 0;\n                padding: 0;\n                box-sizing: border-box;\n            \x7d\n            \n            body \x7b\n                font-family: -apple-system, BlinkMacSystemFont, 'Segoe UI', Roboto, sans-serif;\n                background: linear-gradient(135deg, #667eea 0%, #764ba2 100%);\n                min-height: 100vh;\n                display: flex;\n                justify-content: center;\n                align-items: center;\n                color: #333;\n            \x7d\n            \n            .container \x7b\n                background: white;\n                padding: 40px;\n                border-radius: 16px;\n                box-shadow: 0 20px 40px rgba(0,0,0,0.1);\n                text-align: center;\n                max-width: 500px;\n                width: 90%;\n                position: relative;\n                overflow: hidden;\n            \x7d\n            \n            .container::before \x7b\n                content: '';\n                position: absolute;\n                top: 0;\n                left: 0;\n                right: 0;\n                height: 4px;\n                background: linear-gradient(90deg, #667eea, #764ba2);\n            \x7d\n            \n            h1 \x7b\n                color: #2d3748;\n                margin-bottom: 8px;\n                font-size: 28px;\n                font-weight: 600;\n            \x7d\n            \n            .subtitle \x7b\n                color: #718096;\n        "

/-- Chunk 1 of the template segment pre. -/
def htmlTemplatePre1 : String := "        margin-bottom: 32px;\n                font-size: 16px;\n                line-height: 1.5;\n            \x7d\n            \n            .verification-area \x7b\n                background: #f8fafc;\n                padding: 24px;\n                border-radius: 12px;\n                margin: 24px 0;\n                border: 2px dashed #e2e8f0;\n                transition: all 0.3s ease;\n            \x7d\n            \n            .verification-area:hover \x7b\n                border-color: #667eea;\n                background: #f0f4ff;\n            \x7d\n            \n            .cf-turnstile \x7b\n                margin: 0 auto;\n                display: inline-block;\n            \x7d\n            \n            .status \x7b\n                margin-top: 16px;\n                padding: 12px;\n                border-radius: 8px;\n                font-weight: 500;\n                transition: all 0.3s ease;\n            \x7d\n            \n            .status.waiting \x7b\n                background: #fef5e7;\n                color: #d69e2e;\n                border: 1px solid #f6e05e;\n            \x7d\n            \n            .status.success \x7b\n                background: #f0fff4;\n                color: #38a169;\n                border: 1px solid #68d391;\n            \x7d\n            \n            .status.error \x7b\n                background: #fed7d7;\n                color: #e53e3e;\n                border: 1px solid #fc8181;\n            \x7d\n            \n            .token-display \x7b\n                margin-top: 16px;\n                padding: 12px;\n                background: #edf2f7;\n                border-radius: 8px;\n                font-family: 'Monaco', 'Menlo', monospace;\n                font-size: 12px;\n                word-break: break-all;\n                display: none;\n            \x7d\n            \n            .footer \x7b\n               "

/-- Chunk 2 of the template segment pre. -/
def htmlTemplatePre2 : String := " margin-top: 24px;\n                color: #a0aec0;\n                font-size: 14px;\n            \x7d\n            \n            @keyframes pulse \x7b\n                0%, 100% \x7b opacity: 1; \x7d\n                50% \x7b opacity: 0.7; \x7d\n            \x7d\n            \n            .loading \x7b\n                animation: pulse 2s infinite;\n            \x7d\n        </style>\n    </head>\n    <body>\n        <div class=\"container\">\n            <h1> Security Verification</h1>\n            <p class=\"subtitle\">Please complete the security check below to continue</p>\n            \n            <div class=\"verification-area\">\n                "

/-- Chunk 0 of the template segment mid. -/
def htmlTemplateMid0 : String := "\n            </div>\n            \n            <div id=\"status\" class=\"status waiting\">\n                <span id=\"status-text\">Waiting for verification...</span>\n            </div>\n            \n            <div id=\"token-display\" class=\"token-display\"></div>\n            \n            <div class=\"footer\">\n                <p>Powered by Cloudflare Turnstile</p>\n            </div>\n        </div>\n        \n        <script>\n            let checkInterval;\n            const statusEl = document.getElementById('status');\n            const statusTextEl = document.getElementById('status-text');\n            const tokenDisplayEl = document.getElementById('token-display');\n            \n            // Turnstile initialization\n            window.onTurnstileLoad = function() \x7b\n                console.log('Turnstile API loaded');\n                // Check if widget exists\n                const widget = document.querySelector('.cf-turnstile');\n                if (widget) \x7b\n                    console.log('Turnstile widget found, sitekey:', widget.dataset.sitekey);\n                    \n                    // Validate sitekey format\n                    const sitekey = widget.dataset.sitekey;\n                    if (!sitekey || sitekey.length < 10) \x7b\n                        updateStatus('error', 'Invalid sitekey format');\n                        return;\n                    \x7d\n                    \n                    // For demo/test sitekeys\n                    if (sitekey === '1x00000000000000000000AA' || sitekey === '3x00000000000000000000FF') \x7b\n                        console.log('Using demo/test sitekey - automatic pass expected');\n                    \x7d else if (sitekey.startsWith('0x4AAA')) \x7b\n                        console.log('Warning: This appears to be a placeholder sitekey');\n            "

/-- Chunk 1 of the template segment mid. -/
def htmlTemplateMid1 : String := "            updateStatus('error', 'Invalid sitekey - use a real sitekey or test with /test endpoint');\n                    \x7d\n                \x7d\n            \x7d;\n            \n            // Turnstile callback functions\n            window.turnstileCallback = function(token) \x7b\n                console.log('Turnstile token received:', token);\n                updateStatus('success', 'Verification completed successfully!');\n                showToken(token);\n                \n                // Send token to server\n                fetch('/token', \x7b\n                    method: 'POST',\n                    headers: \x7b 'Content-Type': 'application/json' \x7d,\n                    body: JSON.stringify(\x7b \n                        token: token, \n                        sessionId: getSessionId(),\n                        timestamp: Date.now()\n                    \x7d)\n                \x7d).then(response => response.json())\n                  .then(data => console.log('Token sent to server:', data))\n                  .catch(console.error);\n                \n                clearInterval(checkInterval);\n            \x7d;\n            \n            window.turnstileError = function(error) \x7b\n                console.error('Turnstile error:', error);\n                \n                // Provide specific error feedback\n                let errorMsg = 'Verification failed. ';\n                if (error === 'invalid_sitekey') \x7b\n                    errorMsg += 'Invalid sitekey - this sitekey may not be valid for this domain.';\n                \x7d else if (error === 'network_error') \x7b\n                    errorMsg += 'Network error - check internet connection.';\n                \x7d else if (error === 'domain_mismatch') \x7b\n                    errorMsg += 'Domain mismatch - sitekey not valid for this domain.';\n                \x7d els"

/-- Chunk 2 of the template segment mid. -/
def htmlTemplateMid2 : String := "e \x7b\n                    errorMsg += `Error: $\x7berror\x7d`;\n                \x7d\n                \n                updateStatus('error', errorMsg);\n            \x7d;\n            \n            window.turnstileExpired = function() \x7b\n                console.log('Turnstile expired');\n                updateStatus('waiting', 'Verification expired. Please try again.');\n            \x7d;\n            \n            window.turnstileTimeout = function() \x7b\n                console.log('Turnstile timeout');\n                updateStatus('error', 'Verification timed out. Please refresh and try again.');\n            \x7d;\n            \n            function updateStatus(type, message) \x7b\n                statusEl.className = `status $\x7btype\x7d`;\n                statusTextEl.textContent = message;\n            \x7d\n            \n            function showToken(token) \x7b\n                tokenDisplayEl.textContent = `Token: $\x7btoken\x7d`;\n                tokenDisplayEl.style.display = 'block';\n            \x7d\n            \n            function getSessionId() \x7b\n                return '"

/-- Chunk 0 of the template segment post. -/
def htmlTemplatePost0 : String := "';\n            \x7d\n            \n            // Monitor for token changes\n            function monitorToken() \x7b\n                const tokenInput = document.querySelector('input[name=\"cf-turnstile-response\"]');\n                if (tokenInput && tokenInput.value) \x7b\n                    const token = tokenInput.value;\n                    if (token && token.length > 10) \x7b\n                        turnstileCallback(token);\n                        return;\n                    \x7d\n                \x7d\n                \n                // Check for invisible Turnstile completion\n                const turnstileDiv = document.querySelector('.cf-turnstile');\n                if (turnstileDiv) \x7b\n                    const iframe = turnstileDiv.querySelector('iframe');\n                    if (iframe) \x7b\n                        // Turnstile is loaded, wait for completion\n                        updateStatus('waiting', 'Processing verification...');\n                    \x7d\n                \x7d\n            \x7d\n            \n            // Start monitoring after page load\n            window.addEventListener('load', function() \x7b\n                setTimeout(() => \x7b\n                    checkInterval = setInterval(monitorToken, 500);\n                \x7d, 1000);\n            \x7d);\n            \n            // Monitor Turnstile widget loading\n            document.addEventListener('DOMContentLoaded', function() \x7b\n                console.log('DOM loaded, monitoring Turnstile widget...');\n                \n                // Debug info\n                const turnstileDiv = document.querySelector('.cf-turnstile');\n                if (turnstileDiv) \x7b\n                    console.log('Turnstile div found with sitekey:', turnstileDiv.dataset.sitekey);\n                \x7d else \x7b\n                    console.error('No .cf-turnstile div "

/-- Chunk 1 of the template segment post. -/
def htmlTemplatePost1 : String := "found!');\n                \x7d\n                \n                // Check if Turnstile API is available\n                setTimeout(() => \x7b\n                    if (window.turnstile) \x7b\n                        console.log('Turnstile API object available:', window.turnstile);\n                    \x7d else \x7b\n                        console.error('Turnstile API not loaded!');\n                    \x7d\n                \x7d, 3000);\n                \n                // Check widget status periodically\n                let loadCheckCount = 0;\n                const checkWidget = setInterval(() => \x7b\n                    loadCheckCount++;\n                    const turnstileDiv = document.querySelector('.cf-turnstile');\n                    const iframe = turnstileDiv ? turnstileDiv.querySelector('iframe') : null;\n                    \n                    if (iframe) \x7b\n                        console.log('Turnstile iframe detected');\n                        clearInterval(checkWidget);\n                        \n                        // Check if it's invisible mode\n                        const style = window.getComputedStyle(turnstileDiv);\n                        if (style.width === '0px' || style.height === '0px') \x7b\n                            console.log('Invisible Turnstile detected');\n                            updateStatus('waiting', 'Processing invisible verification...');\n                        \x7d else \x7b\n                            updateStatus('waiting', 'Please complete the verification');\n                        \x7d\n                    \x7d else if (loadCheckCount > 20) \x7b\n                        console.error('Turnstile widget failed to load after 10 seconds');\n                        // Check for common issues\n                        if (!window.turnstile) \x7b\n                            updateSta"

/-- Chunk 2 of the template segment post. -/
def htmlTemplatePost2 : String := "tus('error', 'Turnstile API failed to load - check internet connection');\n                        \x7d else if (!turnstileDiv) \x7b\n                            updateStatus('error', 'Turnstile container not found');\n                        \x7d else \x7b\n                            updateStatus('error', 'Turnstile widget failed to render - invalid sitekey?');\n                        \x7d\n                        clearInterval(checkWidget);\n                    \x7d else \x7b\n                        console.log(`Check $\x7bloadCheckCount\x7d: Widget not loaded yet...`);\n                    \x7d\n                \x7d, 500);\n            \x7d);\n        </script>\n    </body>\n    </html>\n    "

/-- The `HTML_TEMPLATE` text segment (pre). -/
def htmlTemplatePre : String := htmlTemplatePre0 ++ htmlTemplatePre1 ++ htmlTemplatePre2

/-- The `HTML_TEMPLATE` text segment (mid). -/
def htmlTemplateMid : String := htmlTemplateMid0 ++ htmlTemplateMid1 ++ htmlTemplateMid2

/-- The `HTML_TEMPLATE` text segment (post). -/
def htmlTemplatePost : String := htmlTemplatePost0 ++ htmlTemplatePost1 ++ htmlTemplatePost2

/-- The widget placeholder `<!-- TURNSTILE_WIDGET -->` in the template. -/
def WIDGET_PLACEHOLDER : String := "<!-- TURNSTILE_WIDGET -->"

/-- The session-id placeholder (two braces, `SESSION_ID`, two braces). -/
def SESSION_PLACEHOLDER : String := "\x7b\x7bSESSION_ID\x7d\x7d"

/-- `TurnstileRequestHandler.HTML_TEMPLATE`, split at its two placeholders
(each occurs exactly once); the concatenation is the exact template text. -/
def HTML_TEMPLATE : String :=
  htmlTemplatePre ++ WIDGET_PLACEHOLDER ++ htmlTemplateMid
    ++ SESSION_PLACEHOLDER ++ htmlTemplatePost

/-- The scanning loop of Python `str.replace` over the character list:
left-to-right, non-overlapping, replacing every occurrence.  `fuel ≥` the
list's length makes the recursion structural (`fuel` only ever runs out on
the empty list once it is at least the initial length). -/
def replFuel (pat rep : List Char) : Nat → List Char → List Char
  | _, [] => []
  | 0, l => l
  | fuel + 1, c :: rest =>
      if pat.isPrefixOf (c :: rest) then
        rep ++ replFuel pat rep fuel ((c :: rest).drop pat.length)
      else c :: replFuel pat rep fuel rest

/-- Python `s.replace(pat, rep)`.  The server only calls it with the two
non-empty placeholder patterns; for the (unused) empty pattern this returns
`s` unchanged. -/
def strReplace (s pat rep : String) : String :=
  if pat.toList.isEmpty then s
  else ⟨replFuel pat.toList rep.toList s.toList.length s.toList⟩

lemma isPrefixOf_exists : ∀ {l m : List Char}, l.isPrefixOf m = true → ∃ t, m = l ++ t := by
  intro l
  induction l with
  | nil => exact fun {m} _ => ⟨m, rfl⟩
  | cons a as ih =>
    intro m h
    cases m with
    | nil => simp [List.isPrefixOf] at h
    | cons b bs =>
      simp only [List.isPrefixOf, Bool.and_eq_true, beq_iff_eq] at h
      obtain ⟨t, rfl⟩ := ih h.2
      exact ⟨t, by rw [h.1]; simp⟩

lemma isPrefixOf_self_append : ∀ (l t : List Char), l.isPrefixOf (l ++ t) = true := by
  intro l
  induction l with
  | nil => intro t; simp [List.isPrefixOf]
  | cons a as ih => intro t; simp [List.isPrefixOf, ih]

/-- Scanning a segment `x` that does not contain the pattern's first
character emits `x` unchanged and continues after it. -/
lemma replFuel_through {p : Char} {ps : List Char} (rep : List Char) :
    ∀ (x : List Char), p ∉ x → ∀ fuel Q, (x ++ Q).length ≤ fuel →
      ∃ fuel2, Q.length ≤ fuel2 ∧
        replFuel (p :: ps) rep fuel (x ++ Q) = x ++ replFuel (p :: ps) rep fuel2 Q := by
  intro x
  induction x with
  | nil => exact fun _ fuel Q h => ⟨fuel, by simpa using h, rfl⟩
  | cons c x2 ih =>
    intro hp fuel Q h
    cases fuel with
    | zero => simp at h
    | succ f =>
      have hpc : (p == c) = false := by
        have hne : p ≠ c := fun he => hp (he ▸ List.mem_cons_self c x2)
        simpa using hne
      have hnp : (p :: ps).isPrefixOf (c :: (x2 ++ Q)) = false := by
        simp [List.isPrefixOf, hpc]
      have hp2 : p ∉ x2 := fun hm => hp (List.mem_cons_of_mem c hm)
      obtain ⟨fuel2, hf2, heq⟩ := ih hp2 f Q (by simpa using Nat.le_of_succ_le_succ h)
      refine ⟨fuel2, hf2, ?_⟩
      show replFuel (p :: ps) rep (f + 1) (c :: (x2 ++ Q)) = _
      rw [replFuel, hnp]
      simp only [Bool.false_eq_true, if_false, List.cons_append]
      rw [heq]

/-- If the pattern occurs, the replacement text appears in the output. -/
lemma replFuel_hits_core {pat rep : List Char} (c0 : Char) (pat2 : List Char)
    (hpat : pat = c0 :: pat2) :
    ∀ fuel u v, (u ++ (pat ++ v)).length ≤ fuel →
      ∃ A B, replFuel pat rep fuel (u ++ (pat ++ v)) = A ++ (rep ++ B) := by
  intro fuel
  induction fuel with
  | zero =>
    intro u v h
    subst hpat
    simp [Nat.add_assoc] at h
  | succ f ih =>
    intro u v h
    cases u with
    | nil =>
      have hpre : pat.isPrefixOf (pat ++ v) = true := isPrefixOf_self_append pat v
      subst hpat
      refine ⟨[], replFuel (c0 :: pat2) rep f (((c0 :: pat2) ++ v).drop (c0 :: pat2).length), ?_⟩
      show replFuel (c0 :: pat2) rep (f + 1) (c0 :: (pat2 ++ v)) = _
      rw [replFuel]
      rw [show (c0 :: (pat2 ++ v)) = ((c0 :: pat2) ++ v) from rfl, hpre]
      simp
    | cons c u2 =>
      by_cases hpre : pat.isPrefixOf (c :: (u2 ++ (pat ++ v))) = true
      · obtain ⟨t, ht⟩ := isPrefixOf_exists hpre
        subst hpat
        refine ⟨[], replFuel (c0 :: pat2) rep f
          ((c :: (u2 ++ ((c0 :: pat2) ++ v))).drop (c0 :: pat2).length), ?_⟩
        show replFuel (c0 :: pat2) rep (f + 1) (c :: (u2 ++ ((c0 :: pat2) ++ v))) = _
        rw [replFuel, hpre]
        simp
      · obtain ⟨A, B, hAB⟩ := ih u2 v (by simpa using Nat.le_of_succ_le_succ h)
        refine ⟨c :: A, B, ?_⟩
        subst hpat
        show replFuel (c0 :: pat2) rep (f + 1) (c :: (u2 ++ ((c0 :: pat2) ++ v))) = _
        rw [replFuel]
        rw [show ((c0 :: pat2).isPrefixOf (c :: (u2 ++ ((c0 :: pat2) ++ v)))) = false from
          Bool.not_eq_true _ ▸ by simpa using hpre]
        simp only [Bool.false_eq_true, if_false]
        rw [hAB]
        rfl

/-- If a pattern match starts strictly before an occurrence of `y` and is
long enough to cover it, then `y` is one of the pattern characters. -/
lemma head_mem_of_isPrefixOf_long : ∀ (pre pat : List Char) (y : Char) (r : List Char),
    pat.isPrefixOf (pre ++ (y :: r)) = true → pre.length < pat.length → y ∈ pat := by
  intro pre
  induction pre with
  | nil =>
    intro pat y r h hlen
    cases pat with
    | nil => simp at hlen
    | cons q pat2 =>
      simp only [List.nil_append, List.isPrefixOf, Bool.and_eq_true, beq_iff_eq] at h
      obtain ⟨rfl, -⟩ := h
      exact List.mem_cons_self _ _
  | cons c pre2 ih =>
    intro pat y r h hlen
    cases pat with
    | nil => simp at hlen
    | cons q pat2 =>
      simp only [List.cons_append, List.isPrefixOf, Bool.and_eq_true, beq_iff_eq] at h
      refine List.mem_cons_of_mem _ (ih pat2 y r h.2 ?_)
      simpa using Nat.lt_of_succ_lt_succ (by simpa using hlen)

/-- An occurrence of a segment `y :: ys` survives the replacement when no
match can start inside it (the pattern's first character `p` does not occur
in the segment) and no match starting before it can reach into it (the
segment's first character `y` does not occur in the pattern). -/
lemma replFuel_preserves_core {p y : Char} {ps ys : List Char} (rep : List Char)
    (hp : p ∉ y :: ys) (hy : y ∉ p :: ps) :
    ∀ fuel P Q, (P ++ ((y :: ys) ++ Q)).length ≤ fuel →
      ∃ A B, replFuel (p :: ps) rep fuel (P ++ ((y :: ys) ++ Q))
        = A ++ ((y :: ys) ++ B) := by
  intro fuel
  induction fuel with
  | zero =>
    intro P Q h
    simp only [List.length_append, List.length_cons, Nat.le_zero] at h
    omega
  | succ f ih =>
    intro P Q h
    cases P with
    | nil =>
      obtain ⟨fuel2, _, heq⟩ := replFuel_through rep (y :: ys) hp (f + 1) Q (by simpa using h)
      exact ⟨[], replFuel (p :: ps) rep fuel2 Q, by simpa using heq⟩
    | cons c P2 =>
      by_cases hpre : (p :: ps).isPrefixOf (c :: (P2 ++ ((y :: ys) ++ Q))) = true
      · have hlen : (p :: ps).length ≤ (c :: P2).length := by
          by_contra hgt
          push_neg at hgt
          exact hy (head_mem_of_isPrefixOf_long (c :: P2) (p :: ps) y (ys ++ Q)
            (by simpa using hpre) hgt)
        have hdrop : ((c :: P2) ++ ((y :: ys) ++ Q)).drop (p :: ps).length
            = ((c :: P2).drop (p :: ps).length) ++ ((y :: ys) ++ Q) :=
          List.drop_append_of_le_length hlen
        have hfuel2 : (((c :: P2).drop (p :: ps).length) ++ ((y :: ys) ++ Q)).length ≤ f := by
          have hl2 : (p :: ps).length ≤ (c :: P2).length := hlen
          simp only [List.length_append, List.length_cons, List.length_drop] at h hl2 ⊢
          omega
        obtain ⟨A, B, hAB⟩ := ih ((c :: P2).drop (p :: ps).length) Q hfuel2
        refine ⟨rep ++ A, B, ?_⟩
        show replFuel (p :: ps) rep (f + 1) (c :: (P2 ++ ((y :: ys) ++ Q))) = _
        rw [replFuel, hpre]
        simp only [if_true]
        rw [show (c :: (P2 ++ ((y :: ys) ++ Q))).drop (p :: ps).length
            = ((c :: P2).drop (p :: ps).length) ++ ((y :: ys) ++ Q) from hdrop]
        rw [hAB]
        simp [List.append_assoc]
      · rw [Bool.not_eq_true] at hpre
        obtain ⟨A, B, hAB⟩ := ih P2 Q (by simpa using Nat.le_of_succ_le_succ h)
        refine ⟨c :: A, B, ?_⟩
        show replFuel (p :: ps) rep (f + 1) (c :: (P2 ++ ((y :: ys) ++ Q))) = _
        rw [replFuel, hpre]
        simp only [Bool.false_eq_true, if_false]
        rw [hAB]
        rfl

/-- Equation-style wrapper for `replFuel_hits_core`. -/
lemma replFuel_hits (pat rep : List Char) (c0 : Char) (pat2 : List Char)
    (hpat : pat = c0 :: pat2) (fuel : Nat) (s u v : List Char)
    (hs : s = u ++ (pat ++ v)) (hlen : s.length ≤ fuel) :
    ∃ A B, replFuel pat rep fuel s = A ++ (rep ++ B) := by
  subst hs
  exact replFuel_hits_core c0 pat2 hpat fuel u v hlen

/-- Equation-style wrapper for `replFuel_preserves_core`. -/
lemma replFuel_preserves (pat rep : List Char) (p y : Char) (ps ys : List Char)
    (hpat : pat = p :: ps) (hp : p ∉ y :: ys) (hy : y ∉ pat)
    (fuel : Nat) (s P Q : List Char) (hs : s = P ++ ((y :: ys) ++ Q))
    (hlen : s.length ≤ fuel) :
    ∃ A B, replFuel pat rep fuel s = A ++ ((y :: ys) ++ B) := by
  subst hpat
  subst hs
  exact replFuel_preserves_core rep hp hy fuel P Q hlen

/-- An occurrence of the pattern yields an explicit split. -/
lemma occursIn_exists : ∀ {p l : List Char}, occursIn p l = true → ∃ A B, l = A ++ (p ++ B) := by
  intro p l
  induction l with
  | nil =>
    intro h
    simp only [occursIn, List.isEmpty_iff] at h
    subst h
    exact ⟨[], [], rfl⟩
  | cons c rest ih =>
    intro h
    rcases Bool.or_eq_true_iff.mp h with h1 | h1
    · obtain ⟨t, ht⟩ := isPrefixOf_exists h1
      exact ⟨[], t, ht⟩
    · obtain ⟨A, B, hAB⟩ := ih h1
      exact ⟨c :: A, B, by rw [hAB]; rfl⟩

/-- A (non-empty) pattern occurs in any list containing it as a segment. -/
lemma occursIn_intro (c : Char) (p2 : List Char) :
    ∀ (A B : List Char), occursIn (c :: p2) (A ++ ((c :: p2) ++ B)) = true := by
  intro A
  induction A with
  | nil =>
    intro B
    show ((c :: p2).isPrefixOf (c :: (p2 ++ B)) || occursIn (c :: p2) (p2 ++ B)) = true
    rw [show (c :: (p2 ++ B)) = ((c :: p2) ++ B) from rfl, isPrefixOf_self_append]
    rfl
  | cons a A2 ih =>
    intro B
    show ((c :: p2).isPrefixOf (a :: (A2 ++ ((c :: p2) ++ B)))
        || occursIn (c :: p2) (A2 ++ ((c :: p2) ++ B))) = true
    rw [ih B]
    simp

/-- Characters that cannot start a match are scanned past. -/
lemma occursIn_append_notin (c0 : Char) (p2 : List Char) :
    ∀ (a b : List Char), c0 ∉ a →
      occursIn (c0 :: p2) (a ++ b) = occursIn (c0 :: p2) b := by
  intro a
  induction a with
  | nil => intro b _; rfl
  | cons x a2 ih =>
    intro b hx
    have hxc : (c0 == x) = false := by
      have hne : c0 ≠ x := fun he => hx (he ▸ List.mem_cons_self x a2)
      simpa using hne
    show ((c0 :: p2).isPrefixOf (x :: (a2 ++ b)) || occursIn (c0 :: p2) (a2 ++ b)) = _
    rw [show (c0 :: p2).isPrefixOf (x :: (a2 ++ b))
        = ((c0 == x) && p2.isPrefixOf (a2 ++ b)) from rfl, hxc]
    simp only [Bool.false_and, Bool.false_or]
    exact ih b (fun hm => hx (List.mem_cons_of_mem x hm))

/-- If a non-empty string of pattern characters is a prefix of the
replacement output, it was already a prefix of the input — the replacement
text shares no character with the pattern, so it cannot supply any of
those characters. -/
lemma isPrefixOf_replFuel (c0 r0 : Char) (p2 r2 : List Char)
    (hdisj : ∀ c ∈ c0 :: p2, c ∉ r0 :: r2) :
    ∀ (fuel : Nat) (l q : List Char), l.length ≤ fuel → q ≠ [] →
      (∀ c ∈ q, c ∈ c0 :: p2) →
      q.isPrefixOf (replFuel (c0 :: p2) (r0 :: r2) fuel l) = true →
      q.isPrefixOf l = true := by
  intro fuel
  induction fuel with
  | zero =>
    intro l q hlen _ _ hpre
    have hl : l = [] := List.length_eq_zero.mp (Nat.le_zero.mp hlen)
    subst hl
    exact hpre
  | succ f ih =>
    intro l q hlen hq hchars hpre
    cases l with
    | nil => exact hpre
    | cons c rest =>
      obtain ⟨q0, q2, rfl⟩ : ∃ q0 q2, q = q0 :: q2 := by
        cases q with
        | nil => exact absurd rfl hq
        | cons q0 q2 => exact ⟨q0, q2, rfl⟩
      by_cases hm : (c0 :: p2).isPrefixOf (c :: rest) = true
      · exfalso
        have hout : replFuel (c0 :: p2) (r0 :: r2) (f + 1) (c :: rest)
            = (r0 :: r2)
              ++ replFuel (c0 :: p2) (r0 :: r2) f ((c :: rest).drop (c0 :: p2).length) := by
          rw [replFuel, hm]
          simp
        rw [hout] at hpre
        have hq0 : q0 = r0 := by
          simp only [List.cons_append, List.isPrefixOf, Bool.and_eq_true, beq_iff_eq] at hpre
          exact hpre.1
        exact hdisj q0 (hchars q0 (List.mem_cons_self _ _))
          (hq0 ▸ List.mem_cons_self r0 r2)
      · have hout : replFuel (c0 :: p2) (r0 :: r2) (f + 1) (c :: rest)
            = c :: replFuel (c0 :: p2) (r0 :: r2) f rest := by
          rw [replFuel, show ((c0 :: p2).isPrefixOf (c :: rest)) = false from by
            simp only [Bool.not_eq_true] at hm; exact hm]
          simp
        rw [hout] at hpre
        simp only [List.isPrefixOf, Bool.and_eq_true, beq_iff_eq] at hpre ⊢
        refine ⟨hpre.1, ?_⟩
        cases q2 with
        | nil => simp [List.isPrefixOf]
        | cons d q3 =>
          exact ih rest (d :: q3) (by simpa using Nat.le_of_succ_le_succ hlen) (by simp)
            (fun x hx => hchars x (List.mem_cons_of_mem _ hx)) hpre.2

/-- Replacing every occurrence of a pattern by text that shares no character
with it eliminates the pattern: it does not occur in the output. -/
lemma replFuel_eliminates (c0 r0 : Char) (p2 r2 : List Char)
    (hdisj : ∀ c ∈ c0 :: p2, c ∉ r0 :: r2) :
    ∀ (fuel : Nat) (l : List Char), l.length ≤ fuel →
      occursIn (c0 :: p2) (replFuel (c0 :: p2) (r0 :: r2) fuel l) = false := by
  intro fuel
  induction fuel with
  | zero =>
    intro l hlen
    have hl : l = [] := List.length_eq_zero.mp (Nat.le_zero.mp hlen)
    subst hl
    rfl
  | succ f ih =>
    intro l hlen
    cases l with
    | nil => rfl
    | cons c rest =>
      by_cases hm : (c0 :: p2).isPrefixOf (c :: rest) = true
      · have hout : replFuel (c0 :: p2) (r0 :: r2) (f + 1) (c :: rest)
            = (r0 :: r2)
              ++ replFuel (c0 :: p2) (r0 :: r2) f ((c :: rest).drop (c0 :: p2).length) := by
          rw [replFuel, hm]
          simp
        rw [hout,
          occursIn_append_notin c0 p2 (r0 :: r2) _
            (fun hmem => hdisj c0 (List.mem_cons_self _ _) hmem)]
        refine ih _ ?_
        simp only [List.length_drop, List.length_cons] at hlen ⊢
        omega
      · have hout : replFuel (c0 :: p2) (r0 :: r2) (f + 1) (c :: rest)
            = c :: replFuel (c0 :: p2) (r0 :: r2) f rest := by
          rw [replFuel, show ((c0 :: p2).isPrefixOf (c :: rest)) = false from by
            simp only [Bool.not_eq_true] at hm; exact hm]
          simp
        rw [hout]
        have hrec := ih rest (by simpa using Nat.le_of_succ_le_succ hlen)
        have hpre2 : (c0 :: p2).isPrefixOf
            (c :: replFuel (c0 :: p2) (r0 :: r2) f rest) = false := by
          by_contra hx
          rw [Bool.not_eq_false] at hx
          simp only [List.isPrefixOf, Bool.and_eq_true, beq_iff_eq] at hx
          cases hp2 : p2 with
          | nil =>
            refine hm ?_
            subst hp2
            simp [List.isPrefixOf, hx.1]
          | cons d p3 =>
            have hrest : p2.isPrefixOf rest = true := by
              rw [hp2]
              exact isPrefixOf_replFuel c0 r0 p2 r2 hdisj f rest (d :: p3)
                (by simpa using Nat.le_of_succ_le_succ hlen) (by simp)
                (fun x hx2 => List.mem_cons_of_mem _ (hp2.symm ▸ hx2))
                (hp2 ▸ hx.2)
            refine hm ?_
            simp [List.isPrefixOf, hx.1, hrest]
        show ((c0 :: p2).isPrefixOf (c :: replFuel (c0 :: p2) (r0 :: r2) f rest)
            || occursIn (c0 :: p2) (replFuel (c0 :: p2) (r0 :: r2) f rest)) = false
        rw [hpre2, hrec]
        rfl

/-- `(a ++ b).toList` splits (definitional, recorded for rewriting). -/
lemma toList_append (a b : String) : (a ++ b).toList = a.toList ++ b.toList := rfl

/-- The `invalid_sitekeys` list of `_serve_solve_page` (demo and placeholder
keys rejected outright). -/
def invalid_sitekeys : List String :=
  ["1x00000000000000000000AA", "2x00000000000000000000AB", "3x00000000000000000000FF",
   "0x4AAAAAAA", "YOUR_SITE_KEY"]

/-- Python `sep.join(parts)`. -/
def pyJoin (sep : String) : List String → String
  | [] => ""
  | [x] => x
  | x :: xs => x ++ sep ++ pyJoin sep xs

lemma pyJoin_cons (sep x : String) (xs : List String) (h : xs ≠ []) :
    pyJoin sep (x :: xs) = x ++ sep ++ pyJoin sep xs := by
  cases xs with
  | nil => exact absurd rfl h
  | cons y ys => rfl

/-- The widget attributes after the `data-sitekey` attribute, in source
order: the two fixed attributes, then `data-action`/`data-cdata` when the
query supplied them (Python truthiness: non-empty string), then the four
callback attributes. -/
def widgetAttrsTail (action cdata : String) : List String :=
  "data-theme=\"light\"" :: "data-size=\"normal\""
    :: ((if action ≠ "" then ["data-action=\"" ++ action ++ "\""] else [])
      ++ (if cdata ≠ "" then ["data-cdata=\"" ++ cdata ++ "\""] else [])
      ++ ["data-callback=\"turnstileCallback\"",
          "data-error-callback=\"turnstileError\"",
          "data-expired-callback=\"turnstileExpired\"",
          "data-timeout-callback=\"turnstileTimeout\""])

/-- The `cf-turnstile` div built by `_serve_solve_page`:
`<div class="cf-turnstile" {attrs joined with spaces}></div>`. -/
def turnstileWidgetHtml (sitekey action cdata : String) : String :=
  "<div class=\"cf-turnstile\" "
    ++ pyJoin " " (("data-sitekey=\"" ++ sitekey ++ "\"") :: widgetAttrsTail action cdata)
    ++ "></div>"

lemma turnstileWidgetHtml_embeds (sitekey action cdata : String) :
    turnstileWidgetHtml sitekey action cdata
      = "<div class=\"cf-turnstile\" data-sitekey=\""
        ++ (sitekey
          ++ ("\" " ++ (pyJoin " " (widgetAttrsTail action cdata) ++ "></div>"))) := by
  unfold turnstileWidgetHtml
  rw [pyJoin_cons _ _ _ (by simp [widgetAttrsTail])]
  simp only [String.append_assoc]
  rw [← String.append_assoc]
  rfl

/-- Python `self.sessions[k] = v`: replace when the key exists, else append
(dicts preserve insertion order). -/
def dictInsert (sessions : SessionTable) (k : String) (v : SessionData) : SessionTable :=
  if k ∈ sessions.map Prod.fst then
    sessions.map (fun kv => if kv.1 = k then (k, v) else kv)
  else sessions ++ [(k, v)]

/-- The handler's response to `GET /solve`: a JSON error (status and the
error dict's `error` entry) or the 200 HTML solving page. -/
inductive SolveResponse where
  | error (status : Nat) (message : String)
  | page (html : String)

/-- Unfolding `strReplace` for a non-empty pattern. -/
lemma strReplace_toList (s pat rep : String) (hne : pat.toList.isEmpty = false) :
    (strReplace s pat rep).toList
      = replFuel pat.toList rep.toList s.toList.length s.toList := by
  have h2 : ¬(pat.toList.isEmpty = true) := by
    rw [hne]
    simp
  unfold strReplace
  rw [if_neg h2]
  rfl

/-- `_serve_solve_page`.  The four query parameters arrive as `""` when
absent (`query_params.get(k, [''])[0]`); `fresh_id` stands for the generated
`str(uuid.uuid4())` and `now` for `time.time()`.  On success a new `waiting`
session is stored and the served page is the template with the widget markup
and the session id substituted for the two placeholders. -/
def serveSolvePage (sessions : SessionTable) (sitekey url action cdata : String)
    (fresh_id : String) (now : ℚ) : SessionTable × SolveResponse :=
  if sitekey = "" then
    (sessions, .error 400 "Missing required parameter: sitekey")
  else if sitekey ∈ invalid_sitekeys then
    (sessions, .error 400 "Invalid sitekey - Demo/Test key not supported")
  else if ¬ (sitekey.length ≥ 20 ∧ (pyStartsWith sitekey "1x" ∨ pyStartsWith sitekey "0x")) then
    (sessions, .error 400 "Invalid sitekey format")
  else if url = "" then
    (sessions, .error 400 "Missing URL parameter")
  else
    (dictInsert sessions fresh_id
      { id := fresh_id, sitekey := sitekey, url := url, action := action, cdata := cdata,
        created_at := now, status := "waiting", token := none, attempts := 0 },
     .page (strReplace
        (strReplace HTML_TEMPLATE WIDGET_PLACEHOLDER (turnstileWidgetHtml sitekey action cdata))
        SESSION_PLACEHOLDER fresh_id))

set_option maxRecDepth 8000 in
/-- C7 (amended): `GET /solve` with a demo sitekey answers HTTP 400 with a
JSON error body and creates no session.  The embedding claim must be
restricted to ALPHANUMERIC sitekeys — a restriction absent from the original
claim: with a real-format sitekey (not in the rejected demo/placeholder
list, length ≥ 20, `1x`/`0x` prefix) whose characters are all alphanumeric,
a non-empty `url`, and a generated session id fresh for the table, the
server answers HTTP 200 with an HTML page embedding exactly that sitekey
and the fresh session id, and appends a new session with status `waiting`
and a null token to the table.  Without the alphanumeric restriction the
embedding conclusion is false: the server's format check accepts sitekeys
containing `\x7b\x7bSESSION_ID\x7d\x7d`, and the session-id substitution
then rewrites the copy inside the `data-sitekey` attribute (see
`serve_solve_page_counterexample`). -/
theorem serve_solve_page_spec (sessions : SessionTable)
    (sitekey url action cdata fresh : String) (now : ℚ) :
    (serveSolvePage sessions "1x00000000000000000000AA" url action cdata fresh now
        = (sessions, .error 400 "Invalid sitekey - Demo/Test key not supported")) ∧
    (sitekey ∉ invalid_sitekeys →
     20 ≤ sitekey.length →
     (pyStartsWith sitekey "1x" = true ∨ pyStartsWith sitekey "0x" = true) →
     url ≠ "" →
     sitekey.toList.all (fun c => c.isAlphanum) = true →
     fresh ∉ sessions.map Prod.fst →
     ∃ html,
       serveSolvePage sessions sitekey url action cdata fresh now
           = (sessions ++ [(fresh,
               { id := fresh, sitekey := sitekey, url := url, action := action,
                 cdata := cdata, created_at := now, status := "waiting",
                 token := none, attempts := 0 })], .page html)
         ∧ (∃ A B, html.toList = A ++ (sitekey.toList ++ B))
         ∧ (∃ C D, html.toList = C ++ (fresh.toList ++ D))) := by
  constructor
  · unfold serveSolvePage
    rw [if_neg (by decide), if_pos (by decide)]
  · intro hinv h20 hstart hurl halnum hfresh
    obtain ⟨y, t2, hsl, hysp⟩ :
        ∃ y t2, sitekey.toList = y :: t2 ∧ y ∉ SESSION_PLACEHOLDER.toList := by
      rcases hstart with h | h
      · obtain ⟨t, ht⟩ := isPrefixOf_exists (by simpa [pyStartsWith] using h)
        exact ⟨'1', 'x' :: t, by simpa using ht, by decide⟩
      · obtain ⟨t, ht⟩ := isPrefixOf_exists (by simpa [pyStartsWith] using h)
        exact ⟨'0', 'x' :: t, by simpa using ht, by decide⟩
    have hne : sitekey ≠ "" := fun he => by rw [he] at hsl; simp at hsl
    have hbrace : '{' ∉ sitekey.toList :=
      fun hm => absurd (List.all_eq_true.mp halnum _ hm) (by decide)
    have hsp : SESSION_PLACEHOLDER.toList = '{' :: "\x7bSESSION_ID\x7d\x7d".toList := rfl
    have hwp : WIDGET_PLACEHOLDER.toList = '<' :: "!-- TURNSTILE_WIDGET -->".toList := rfl
    have hT1 : HTML_TEMPLATE.toList
        = htmlTemplatePre.toList ++ (WIDGET_PLACEHOLDER.toList
          ++ (htmlTemplateMid.toList
            ++ (SESSION_PLACEHOLDER.toList ++ htmlTemplatePost.toList))) := by
      simp only [HTML_TEMPLATE, toList_append, List.append_assoc]
    have e1 : (strReplace HTML_TEMPLATE WIDGET_PLACEHOLDER
          (turnstileWidgetHtml sitekey action cdata)).toList
        = replFuel WIDGET_PLACEHOLDER.toList (turnstileWidgetHtml sitekey action cdata).toList
            HTML_TEMPLATE.toList.length HTML_TEMPLATE.toList :=
      strReplace_toList _ _ _ (by decide)
    have e2 : (strReplace
          (strReplace HTML_TEMPLATE WIDGET_PLACEHOLDER
            (turnstileWidgetHtml sitekey action cdata))
          SESSION_PLACEHOLDER fresh).toList
        = replFuel SESSION_PLACEHOLDER.toList fresh.toList
            (strReplace HTML_TEMPLATE WIDGET_PLACEHOLDER
              (turnstileWidgetHtml sitekey action cdata)).toList.length
            (strReplace HTML_TEMPLATE WIDGET_PLACEHOLDER
              (turnstileWidgetHtml sitekey action cdata)).toList :=
      strReplace_toList _ _ _ (by decide)
    unfold serveSolvePage
    rw [if_neg hne, if_neg hinv, if_neg (not_not_intro ⟨h20, hstart⟩), if_neg hurl]
    refine ⟨strReplace
        (strReplace HTML_TEMPLATE WIDGET_PLACEHOLDER (turnstileWidgetHtml sitekey action cdata))
        SESSION_PLACEHOLDER fresh, ?_, ?_, ?_⟩
    · rw [dictInsert, if_neg hfresh]
    · -- the sitekey occurrence survives both substitutions
      obtain ⟨A1, B1, h1⟩ := replFuel_hits WIDGET_PLACEHOLDER.toList
        (turnstileWidgetHtml sitekey action cdata).toList
        '<' ("!-- TURNSTILE_WIDGET -->".toList) hwp
        HTML_TEMPLATE.toList.length HTML_TEMPLATE.toList
        htmlTemplatePre.toList
        (htmlTemplateMid.toList ++ (SESSION_PLACEHOLDER.toList ++ htmlTemplatePost.toList))
        hT1 (le_refl _)
      have hpage1 : (strReplace HTML_TEMPLATE WIDGET_PLACEHOLDER
            (turnstileWidgetHtml sitekey action cdata)).toList
          = A1 ++ ((turnstileWidgetHtml sitekey action cdata).toList ++ B1) := e1.trans h1
      have hWL : (turnstileWidgetHtml sitekey action cdata).toList
          = ("<div class=\"cf-turnstile\" data-sitekey=\"").toList
            ++ (sitekey.toList
              ++ ("\" " ++ (pyJoin " " (widgetAttrsTail action cdata) ++ "></div>")).toList) := by
        rw [turnstileWidgetHtml_embeds]
        simp only [toList_append, List.append_assoc]
      have hs2 : (strReplace HTML_TEMPLATE WIDGET_PLACEHOLDER
            (turnstileWidgetHtml sitekey action cdata)).toList
          = (A1 ++ ("<div class=\"cf-turnstile\" data-sitekey=\"").toList)
            ++ ((y :: t2)
              ++ (("\" " ++ (pyJoin " " (widgetAttrsTail action cdata) ++ "></div>")).toList
                ++ B1)) := by
        rw [hpage1, hWL, hsl]
        simp [List.append_assoc]
      obtain ⟨A4, B4, h4⟩ := replFuel_preserves SESSION_PLACEHOLDER.toList fresh.toList
        '{' y ("\x7bSESSION_ID\x7d\x7d".toList) t2 hsp
        (by rw [← hsl]; exact hbrace) hysp
        (strReplace HTML_TEMPLATE WIDGET_PLACEHOLDER
          (turnstileWidgetHtml sitekey action cdata)).toList.length
        (strReplace HTML_TEMPLATE WIDGET_PLACEHOLDER
          (turnstileWidgetHtml sitekey action cdata)).toList
        (A1 ++ ("<div class=\"cf-turnstile\" data-sitekey=\"").toList)
        (("\" " ++ (pyJoin " " (widgetAttrsTail action cdata) ++ "></div>")).toList ++ B1)
        hs2 (le_refl _)
      refine ⟨A4, B4, ?_⟩
      rw [hsl]
      exact e2.trans h4
    · -- the fresh session id is substituted into the page
      obtain ⟨A2, B2, h2⟩ := replFuel_preserves WIDGET_PLACEHOLDER.toList
        (turnstileWidgetHtml sitekey action cdata).toList
        '<' '{' ("!-- TURNSTILE_WIDGET -->".toList) ("\x7bSESSION_ID\x7d\x7d".toList)
        hwp (by decide) (by decide)
        HTML_TEMPLATE.toList.length HTML_TEMPLATE.toList
        (htmlTemplatePre.toList ++ (WIDGET_PLACEHOLDER.toList ++ htmlTemplateMid.toList))
        htmlTemplatePost.toList
        (by rw [hT1, hsp]; simp [List.append_assoc]) (le_refl _)
      have hpage1 : (strReplace HTML_TEMPLATE WIDGET_PLACEHOLDER
            (turnstileWidgetHtml sitekey action cdata)).toList
          = A2 ++ (SESSION_PLACEHOLDER.toList ++ B2) := by
        rw [hsp]
        exact e1.trans h2
      obtain ⟨A3, B3, h3⟩ := replFuel_hits SESSION_PLACEHOLDER.toList fresh.toList
        '{' ("\x7bSESSION_ID\x7d\x7d".toList) hsp
        (strReplace HTML_TEMPLATE WIDGET_PLACEHOLDER
          (turnstileWidgetHtml sitekey action cdata)).toList.length
        (strReplace HTML_TEMPLATE WIDGET_PLACEHOLDER
          (turnstileWidgetHtml sitekey action cdata)).toList
        A2 B2 hpage1 (le_refl _)
      exact ⟨A3, B3, e2.trans h3⟩

theorem serve_solve_page_spec_witness :
    ∃ html,
      serveSolvePage [] "1xABCDEF1234567890ABCDEF1234567890" "https://x.test" "" "" "f47ac10b" 0
          = ([] ++ [("f47ac10b",
              { id := "f47ac10b", sitekey := "1xABCDEF1234567890ABCDEF1234567890",
                url := "https://x.test", action := "", cdata := "",
                created_at := 0, status := "waiting", token := none, attempts := 0 })],
             .page html)
        ∧ (∃ A B, html.toList = A ++ ("1xABCDEF1234567890ABCDEF1234567890".toList ++ B))
        ∧ (∃ C D, html.toList = C ++ ("f47ac10b".toList ++ D)) :=
  (serve_solve_page_spec [] "1xABCDEF1234567890ABCDEF1234567890"
      "https://x.test" "" "" "f47ac10b" 0).2
    (by decide) (by decide) (Or.inl (by decide)) (by decide) (by decide) (by decide)

/-- Counterexample to the original C7: the 20-character sitekey
`1x\x7b\x7bSESSION_ID\x7d\x7dAAAA` satisfies the claim's format conditions
(`1x` prefix, length ≥ 20, not in the rejected list) and passes
`_serve_solve_page`'s validation, so the server answers HTTP 200 — yet the
served page does not embed that sitekey: the session-id substitution
rewrites the `\x7b\x7bSESSION_ID\x7d\x7d` inside the `data-sitekey`
attribute, and the resulting page provably contains no occurrence of the
sitekey at all. -/
theorem serve_solve_page_counterexample :
    ("1x\x7b\x7bSESSION_ID\x7d\x7dAAAA" : String).length = 20 ∧
    pyStartsWith "1x\x7b\x7bSESSION_ID\x7d\x7dAAAA" "1x" = true ∧
    ("1x\x7b\x7bSESSION_ID\x7d\x7dAAAA" : String) ∉ invalid_sitekeys ∧
    ∃ html,
      (serveSolvePage [] "1x\x7b\x7bSESSION_ID\x7d\x7dAAAA" "https://x.test" "" ""
          "f47ac10b" 0).2 = SolveResponse.page html ∧
      occursIn ("1x\x7b\x7bSESSION_ID\x7d\x7dAAAA" : String).toList html.toList = false := by
  refine ⟨by decide, by decide, by decide, strReplace
      (strReplace HTML_TEMPLATE WIDGET_PLACEHOLDER
        (turnstileWidgetHtml "1x\x7b\x7bSESSION_ID\x7d\x7dAAAA" "" ""))
      SESSION_PLACEHOLDER "f47ac10b", ?_, ?_⟩
  · unfold serveSolvePage
    rw [if_neg (by decide), if_neg (by decide), if_neg (by decide), if_neg (by decide)]
  · rw [strReplace_toList
      (strReplace HTML_TEMPLATE WIDGET_PLACEHOLDER
        (turnstileWidgetHtml "1x\x7b\x7bSESSION_ID\x7d\x7dAAAA" "" ""))
      SESSION_PLACEHOLDER "f47ac10b" (by decide)]
    by_contra hocc
    rw [Bool.not_eq_false] at hocc
    obtain ⟨A, B, hAB⟩ := occursIn_exists hocc
    have hk : ("1x\x7b\x7bSESSION_ID\x7d\x7dAAAA" : String).toList
        = ['1', 'x'] ++ (SESSION_PLACEHOLDER.toList ++ "AAAA".toList) := by decide
    rw [hk] at hAB
    have hocc2 : occursIn SESSION_PLACEHOLDER.toList
        (replFuel SESSION_PLACEHOLDER.toList "f47ac10b".toList
          (strReplace HTML_TEMPLATE WIDGET_PLACEHOLDER
            (turnstileWidgetHtml "1x\x7b\x7bSESSION_ID\x7d\x7dAAAA" "" "")).toList.length
          (strReplace HTML_TEMPLATE WIDGET_PLACEHOLDER
            (turnstileWidgetHtml "1x\x7b\x7bSESSION_ID\x7d\x7dAAAA" "" "")).toList) = true := by
      rw [hAB, show A ++ ((['1', 'x'] ++ (SESSION_PLACEHOLDER.toList ++ "AAAA".toList)) ++ B)
          = (A ++ ['1', 'x']) ++ (SESSION_PLACEHOLDER.toList ++ ("AAAA".toList ++ B)) from by
        simp [List.append_assoc]]
      exact occursIn_intro '{' ("\x7bSESSION_ID\x7d\x7d".toList)
        (A ++ ['1', 'x']) ("AAAA".toList ++ B)
    have hno : occursIn SESSION_PLACEHOLDER.toList
        (replFuel SESSION_PLACEHOLDER.toList "f47ac10b".toList
          (strReplace HTML_TEMPLATE WIDGET_PLACEHOLDER
            (turnstileWidgetHtml "1x\x7b\x7bSESSION_ID\x7d\x7dAAAA" "" "")).toList.length
          (strReplace HTML_TEMPLATE WIDGET_PLACEHOLDER
            (turnstileWidgetHtml "1x\x7b\x7bSESSION_ID\x7d\x7dAAAA" "" "")).toList) = false :=
      replFuel_eliminates '{' 'f' ("\x7bSESSION_ID\x7d\x7d".toList) ("47ac10b".toList)
        (by decide)
        (strReplace HTML_TEMPLATE WIDGET_PLACEHOLDER
          (turnstileWidgetHtml "1x\x7b\x7bSESSION_ID\x7d\x7dAAAA" "" "")).toList.length
        (strReplace HTML_TEMPLATE WIDGET_PLACEHOLDER
          (turnstileWidgetHtml "1x\x7b\x7bSESSION_ID\x7d\x7dAAAA" "" "")).toList
        (le_refl _)
    exact absurd (hocc2.symm.trans hno) (by decide)

/-! The solving-strategy order: `attempt_capsolver_turnstile_solve`
(`modules/turnstile_solver.py` 709–856) as orchestrated by `main`
(`main.py` 528–545).  The external world — what the CapSolver API, the
local-server round trip and the page-side injections answer — is an
environment parameter; the observable strategy invocations are recorded as
an event trace in program order. -/

/-- One Turnstile element as extracted by `extract_turnstile_data`. -/
structure TurnstileElement where
  index : Nat
  visible : Bool
  sitekey : Option String
  action : Option String
  cdata : Option String

/-- What the external services answer, per element index. -/
structure SolveEnv where
  capsolverToken : Nat → Option String
  capsolverInjectOk : Nat → Bool
  serverToken : Nat → Option String
  serverInjectOk : Nat → Bool

/-- An observable strategy invocation: a `capsolver.solve_turnstile` call, an
`attempt_server_turnstile_solve` call, or an
`attempt_automatic_turnstile_click` call. -/
inductive SolveEvent where
  | apiCall (index : Nat)
  | serverCall (index : Nat)
  | clickAttempt
deriving DecidableEq

/-- The strategy calls made for one element of the loop in
`attempt_capsolver_turnstile_solve`: invisible or sitekey-less elements are
skipped; otherwise the CapSolver API is called, and only when it returns no
token is the local server tried as a fallback. -/
def elemEvents (env : SolveEnv) (e : TurnstileElement) : List SolveEvent :=
  if e.visible = false then []
  else
    match e.sitekey with
    | none => []
    | some _ =>
        .apiCall e.index ::
          (match env.capsolverToken e.index with
           | some _ => []
           | none => [.serverCall e.index])

/-- The contribution of one element to `success_count`: 1 when a token was
obtained (from the API, or from the server fallback) and injected. -/
def elemScore (env : SolveEnv) (e : TurnstileElement) : Nat :=
  if e.visible = false then 0
  else
    match e.sitekey with
    | none => 0
    | some _ =>
        match env.capsolverToken e.index with
        | some _ => if env.capsolverInjectOk e.index then 1 else 0
        | none =>
            match env.serverToken e.index with
            | some _ => if env.serverInjectOk e.index then 1 else 0
            | none => 0

/-- `attempt_capsolver_turnstile_solve`: returns `False` immediately (with no
strategy calls) when there are no elements; otherwise processes the elements
in order and reports `success_count > 0`. -/
def attemptCapsolverTurnstileSolve (env : SolveEnv) (elements : List TurnstileElement) :
    Bool × List SolveEvent :=
  if elements.isEmpty then (false, [])
  else (decide (0 < (elements.map (elemScore env)).sum),
        elements.flatMap (elemEvents env))

/-- `main` (lines 528–545), for a detected Turnstile with a configured
CapSolver client: run `attempt_capsolver_turnstile_solve`; only when it
reports success is `attempt_automatic_turnstile_click` invoked. -/
def mainTurnstileFlow (env : SolveEnv) (elements : List TurnstileElement) : List SolveEvent :=
  if (attemptCapsolverTurnstileSolve env elements).1 then
    (attemptCapsolverTurnstileSolve env elements).2 ++ [.clickAttempt]
  else (attemptCapsolverTurnstileSolve env elements).2

/-- The ordering asserted by C5's source sentence (spec §4.4): per widget,
direct clicking first, then the local-server round trip, then the
third-party API — a later strategy only after the earlier ones. -/
def specSolvingOrder (tr : List SolveEvent) : Prop :=
  (∀ (i w : Nat), tr[i]? = some (SolveEvent.serverCall w) →
     ∃ j : Nat, j < i ∧ tr[j]? = some SolveEvent.clickAttempt) ∧
  (∀ (i w : Nat), tr[i]? = some (SolveEvent.apiCall w) →
     (∃ j : Nat, j < i ∧ tr[j]? = some SolveEvent.clickAttempt) ∧
     (∃ k : Nat, k < i ∧ tr[k]? = some (SolveEvent.serverCall w)))

/-- Counterexample element and environment for C3: one visible widget whose
solve succeeds through the API at once. -/
def c3Element : TurnstileElement :=
  { index := 0, visible := true, sitekey := some "1xWIDGETKEY0000000000",
    action := none, cdata := none }

/-- Counterexample environment for C3. -/
def c3Env : SolveEnv :=
  { capsolverToken := fun _ => some "api-token",
    capsolverInjectOk := fun _ => true,
    serverToken := fun _ => none,
    serverInjectOk := fun _ => false }

/-- Counterexample to C3: the code calls the third-party API first — the
trace for one visible widget is `[apiCall, clickAttempt]`, the API call
happening with no prior click or server attempt, refuting the claimed
click → server → API order. -/
theorem solver_order_counterexample :
    mainTurnstileFlow c3Env [c3Element] = [SolveEvent.apiCall 0, SolveEvent.clickAttempt] ∧
    ¬ specSolvingOrder (mainTurnstileFlow c3Env [c3Element]) := by
  have h1 : mainTurnstileFlow c3Env [c3Element] = [SolveEvent.apiCall 0, SolveEvent.clickAttempt] := rfl
  refine ⟨h1, fun h => ?_⟩
  obtain ⟨-, h2⟩ := h
  rw [h1] at h2
  obtain ⟨⟨j, hj, -⟩, -⟩ := h2 0 0 rfl
  exact absurd hj (Nat.not_lt_zero j)

/-- The three possible shapes of a per-element event block. -/
lemma elemEvents_cases (env : SolveEnv) (e : TurnstileElement) :
    elemEvents env e = []
    ∨ (elemEvents env e = [.apiCall e.index] ∧ ∃ t, env.capsolverToken e.index = some t)
    ∨ (elemEvents env e = [.apiCall e.index, .serverCall e.index]
        ∧ env.capsolverToken e.index = none) := by
  unfold elemEvents
  split
  · exact Or.inl rfl
  · match hsk : e.sitekey with
    | none => exact Or.inl rfl
    | some k =>
      match htok : env.capsolverToken e.index with
      | some t => exact Or.inr (Or.inl ⟨rfl, t, rfl⟩)
      | none => exact Or.inr (Or.inr ⟨rfl, rfl⟩)

/-- In the solver's trace, every `serverCall` for a widget is preceded by an
`apiCall` for the same widget, and occurs only because that API call
returned no token. -/
lemma bind_server_preceded (env : SolveEnv) :
    ∀ (els : List TurnstileElement) (i : Nat) (w : Nat),
      (els.flatMap (elemEvents env))[i]? = some (.serverCall w) →
        env.capsolverToken w = none ∧
        ∃ j, j < i ∧ (els.flatMap (elemEvents env))[j]? = some (.apiCall w) := by
  intro els
  induction els with
  | nil => intro i w h; simp at h
  | cons e rest ih =>
    intro i w h
    rw [List.flatMap_cons] at h
    rcases elemEvents_cases env e with hc | ⟨hc, t, htok⟩ | ⟨hc, htok⟩
    · rw [hc, List.nil_append] at h
      obtain ⟨htok2, j, hj, hjv⟩ := ih i w h
      refine ⟨htok2, j, hj, ?_⟩
      rw [List.flatMap_cons, hc, List.nil_append]
      exact hjv
    · rw [hc] at h
      cases i with
      | zero => simp at h
      | succ i2 =>
        rw [show ([SolveEvent.apiCall e.index] ++ rest.flatMap (elemEvents env))
            = SolveEvent.apiCall e.index :: rest.flatMap (elemEvents env) from rfl,
          List.getElem?_cons_succ] at h
        obtain ⟨htok2, j, hj, hjv⟩ := ih i2 w h
        refine ⟨htok2, j + 1, by omega, ?_⟩
        rw [List.flatMap_cons, hc]
        rw [show ([SolveEvent.apiCall e.index] ++ rest.flatMap (elemEvents env))
            = SolveEvent.apiCall e.index :: rest.flatMap (elemEvents env) from rfl,
          List.getElem?_cons_succ]
        exact hjv
    · rw [hc] at h
      cases i with
      | zero => simp at h
      | succ i2 =>
        cases i2 with
        | zero =>
          simp only [List.cons_append, List.getElem?_cons_succ,
            List.getElem?_cons_zero] at h
          have hw : w = e.index := by
            cases h
            rfl
          subst hw
          refine ⟨htok, 0, Nat.zero_lt_one, ?_⟩
          rw [List.flatMap_cons, hc]
          rfl
        | succ i3 =>
          rw [show ([SolveEvent.apiCall e.index, SolveEvent.serverCall e.index]
                ++ rest.flatMap (elemEvents env))
              = SolveEvent.apiCall e.index :: SolveEvent.serverCall e.index
                :: rest.flatMap (elemEvents env) from rfl,
            List.getElem?_cons_succ, List.getElem?_cons_succ] at h
          obtain ⟨htok2, j, hj, hjv⟩ := ih i3 w h
          refine ⟨htok2, j + 2, by omega, ?_⟩
          rw [List.flatMap_cons, hc]
          rw [show ([SolveEvent.apiCall e.index, SolveEvent.serverCall e.index]
                ++ rest.flatMap (elemEvents env))
              = SolveEvent.apiCall e.index :: SolveEvent.serverCall e.index
                :: rest.flatMap (elemEvents env) from rfl,
            List.getElem?_cons_succ, List.getElem?_cons_succ]
          exact hjv

/-- The solver trace contains no click events. -/
lemma bind_no_click (env : SolveEnv) (els : List TurnstileElement) :
    ∀ ev ∈ els.flatMap (elemEvents env), ev ≠ SolveEvent.clickAttempt := by
  intro ev hm
  obtain ⟨e, -, hev⟩ := List.mem_flatMap.mp hm
  rcases elemEvents_cases env e with hc | ⟨hc, -⟩ | ⟨hc, -⟩ <;> rw [hc] at hev
  · cases hev
  · simp only [List.mem_singleton] at hev
    subst hev
    simp
  · simp only [List.mem_cons, List.not_mem_nil, or_false] at hev
    rcases hev with rfl | rfl <;> simp

/-- C3 (amended): the code's per-widget order is API first — every
`serverCall` in the flow's trace is preceded by an `apiCall` for the same
widget and happens only because that call returned no token — and the one
`clickAttempt` happens only when the API/server phase reported success,
after all of its strategy calls. -/
theorem solver_order_amended (env : SolveEnv) (elements : List TurnstileElement) :
    (∀ (i w : Nat), (mainTurnstileFlow env elements)[i]? = some (SolveEvent.serverCall w) →
       env.capsolverToken w = none ∧
       ∃ j : Nat, j < i ∧ (mainTurnstileFlow env elements)[j]? = some (SolveEvent.apiCall w)) ∧
    (∀ i : Nat, (mainTurnstileFlow env elements)[i]? = some SolveEvent.clickAttempt →
       (attemptCapsolverTurnstileSolve env elements).1 = true ∧
       i = (attemptCapsolverTurnstileSolve env elements).2.length) := by
  have htr : (attemptCapsolverTurnstileSolve env elements).2
      = elements.flatMap (elemEvents env) ∨
      (attemptCapsolverTurnstileSolve env elements).2 = [] := by
    unfold attemptCapsolverTurnstileSolve
    split
    · exact Or.inr rfl
    · exact Or.inl rfl
  constructor
  · intro i w h
    unfold mainTurnstileFlow at h ⊢
    split at h
    · rename_i hsucc
      rw [if_pos hsucc]
      rcases htr with htr | htr
      · rw [htr] at h ⊢
        by_cases hlt : i < (elements.flatMap (elemEvents env)).length
        · rw [List.getElem?_append, if_pos hlt] at h
          obtain ⟨htok, j, hj, hjv⟩ := bind_server_preceded env elements i w h
          refine ⟨htok, j, hj, ?_⟩
          rw [List.getElem?_append, if_pos (by omega)]
          exact hjv
        · rw [List.getElem?_append, if_neg hlt] at h
          rcases hn : i - (elements.flatMap (elemEvents env)).length with _ | n <;>
            rw [hn] at h <;> simp at h
      · rw [htr] at h
        cases i with
        | zero => simp at h
        | succ i2 => simp at h
    · rename_i hsucc
      rw [if_neg hsucc]
      rcases htr with htr | htr
      · rw [htr] at h ⊢
        obtain ⟨htok, j, hj, hjv⟩ := bind_server_preceded env elements i w h
        exact ⟨htok, j, hj, hjv⟩
      · rw [htr] at h
        cases h
  · intro i h
    unfold mainTurnstileFlow at h
    split at h
    · rename_i hsucc
      refine ⟨hsucc, ?_⟩
      rcases htr with htr | htr
      · rw [htr] at h
        by_cases hlt : i < (elements.flatMap (elemEvents env)).length
        · rw [List.getElem?_append, if_pos hlt] at h
          exact absurd rfl (bind_no_click env elements _ (List.getElem?_mem h))
        · rw [List.getElem?_append, if_neg hlt] at h
          rw [htr]
          rcases hn : i - (elements.flatMap (elemEvents env)).length with _ | n
          · omega
          · rw [hn] at h
            simp at h
      · rw [htr] at h
        rw [htr]
        cases i with
        | zero => rfl
        | succ i2 => simp at h
    · rename_i hsucc
      rcases htr with htr | htr
      · rw [htr] at h
        exact absurd rfl (bind_no_click env elements _ (List.getElem?_mem h))
      · rw [htr] at h
        cases h

/-- Witness element for the C3 witness: the API fails, so the trace shows
the API call first and the server fallback second. -/
def c3wElement : TurnstileElement :=
  { index := 0, visible := true, sitekey := some "1xWIDGETKEY0000000001",
    action := none, cdata := none }

/-- Witness environment for the C3 witness. -/
def c3wEnv : SolveEnv :=
  { capsolverToken := fun _ => none,
    capsolverInjectOk := fun _ => false,
    serverToken := fun _ => none,
    serverInjectOk := fun _ => false }

theorem solver_order_amended_witness :
    c3wEnv.capsolverToken 0 = none ∧
    ∃ j : Nat, j < 1 ∧ (mainTurnstileFlow c3wEnv [c3wElement])[j]?
      = some (SolveEvent.apiCall 0) :=
  (solver_order_amended c3wEnv [c3wElement]).1 1 0 rfl

end Ghost
